import Mathlib

/-!
ChatSphere client session state (`static/js/main.js`).

A shallow embedding of the conversation-state part of `main.js`: the five
collections, the active-conversation pointer, the message-input switch, the
session-storage snapshot and the click / socket handlers that change them.

JavaScript strings are sequences of UTF-16 code units and the default
`Array.prototype.sort` compares them unit by unit, so the string order used by
`[request, username].sort()` is modelled on the UTF-16 encoding of a Lean
`String`.
-/

namespace ChatSphere

/-! ## JavaScript strings -/

/-- UTF-16 code units of one character (a surrogate pair above the BMP). -/
def utf16 (c : Char) : List Nat :=
  if c.toNat < 0x10000 then [c.toNat]
  else [0xD800 + (c.toNat - 0x10000) / 0x400, 0xDC00 + (c.toNat - 0x10000) % 0x400]

/-- UTF-16 code units of a list of characters. -/
def unitsOf : List Char → List Nat
  | [] => []
  | c :: cs => utf16 c ++ unitsOf cs

/-- The code units of a string, as JavaScript stores it. -/
def codeUnits (s : String) : List Nat := unitsOf s.data

/-- Lexicographic comparison of code-unit sequences (`x < y` on JS strings):
a proper prefix is smaller, otherwise the first differing unit decides. -/
def unitsLt : List Nat → List Nat → Bool
  | [], [] => false
  | [], _ :: _ => true
  | _ :: _, [] => false
  | x :: xs, y :: ys => if x < y then true else if y < x then false else unitsLt xs ys

/-- JavaScript `a < b` on strings. -/
def jsLt (a b : String) : Bool := unitsLt (codeUnits a) (codeUnits b)

/-- Stable insertion of `x` in front of a list sorted by `jsLt`: `x` passes
only the elements that are smaller than it. -/
def jsInsert (x : String) : List String → List String
  | [] => [x]
  | y :: ys => if jsLt y x then y :: jsInsert x ys else x :: y :: ys

/-- `Array.prototype.sort()` without a comparator on an array of strings:
ascending code-unit order, stable. -/
def jsSort : List String → List String
  | [] => []
  | x :: xs => jsInsert x (jsSort xs)

/-- `Array.prototype.join(sep)` on an array of strings. -/
def jsJoin (sep : String) : List String → String
  | [] => ""
  | [x] => x
  | x :: y :: ys => x ++ sep ++ jsJoin sep (y :: ys)

/-- The private room identifier of `renderAcceptButton`:
`[request, username].sort().join('_')` (lines 239 and 258). -/
def roomId (request username : String) : String :=
  jsJoin "_" (jsSort [request, username])

/-! ## `JSON.stringify` of the persisted collections -/

/-- Four lowercase hexadecimal digits, as in a `\uXXXX` escape. -/
def hex4 (n : Nat) : String :=
  String.mk [Nat.digitChar (n / 4096 % 16), Nat.digitChar (n / 256 % 16),
    Nat.digitChar (n / 16 % 16), Nat.digitChar (n % 16)]

/-- The JSON escape of one character (`QuoteJSONString`). -/
def quoteChar (c : Char) : String :=
  if c.toNat = 0x08 then "\\b"
  else if c.toNat = 0x09 then "\\t"
  else if c.toNat = 0x0A then "\\n"
  else if c.toNat = 0x0C then "\\f"
  else if c.toNat = 0x0D then "\\r"
  else if c.toNat = 0x22 then "\\\""
  else if c.toNat = 0x5C then "\\\\"
  else if c.toNat < 0x20 then "\\u" ++ hex4 c.toNat
  else String.singleton c

/-- `JSON.stringify` of a string. -/
def stringifyString (s : String) : String :=
  "\"" ++ String.join (s.data.map quoteChar) ++ "\""

/-- `JSON.stringify` of an array of strings. -/
def stringifyStrings (xs : List String) : String :=
  "[" ++ jsJoin "," (xs.map stringifyString) ++ "]"

/-- One private chat tab: the other party and the room it talks in. -/
structure PrivateChat where
  displayName : String
  channel : String
  deriving DecidableEq, Repr

/-- `JSON.stringify` of `{ displayName, channel }`. -/
def stringifyChat (chat : PrivateChat) : String :=
  "\x7b\"displayName\":" ++ stringifyString chat.displayName ++
    ",\"channel\":" ++ stringifyString chat.channel ++ "\x7d"

/-- `JSON.stringify` of the `privateChats` array. -/
def stringifyChats (xs : List PrivateChat) : String :=
  "[" ++ jsJoin "," (xs.map stringifyChat) ++ "]"

/-! ## State -/

/-- The `sessionStorage` keys the script uses: the five snapshot keys it
writes, and the two identity keys it only reads in the `connect` handler. -/
structure Storage where
  activeChannels : Option String
  privateChatRequests : Option String
  viewedRequests : Option String
  privateChats : Option String
  viewedChats : Option String
  username : Option String
  is_logged_out : Option String
  deriving DecidableEq, Repr

/-- The module-level variables of lines 191-196, the enabled state of the
message input set by `toggleChatInput`, and `sessionStorage`. -/
structure State where
  activeChannels : List String
  currentActiveChannel : Option String
  privateChatRequests : List String
  viewedRequests : List String
  privateChats : List PrivateChat
  viewedChats : List String
  inputEnabled : Bool
  sessionStorage : Storage
  deriving DecidableEq, Repr

/-- Events sent with `socket.emit`. -/
inductive Emit where
  | join (channel : String)
  | leave (channel : String)
  | message (channel : String) (message : String)
  | request_private_chat (from_ : String) (to_ : String)
  | accept_private_chat (from_ : String) (to_ : String)
  | close_private_chat (from_ : String) (to_ : String) (channel : String)
  | rejoin_channels (username : String) (channels : List String)
  | check_private_requests (username : String)
  | refresh
  deriving DecidableEq, Repr

/-- Payload of `request_private_chat`. -/
structure RequestData where
  from_ : String
  to_ : String
  deriving DecidableEq, Repr

/-- Payload of `remove_request`. -/
structure RemoveData where
  request : String
  deriving DecidableEq, Repr

/-- Payload of `start_private_chat` and `close_private_chat`. -/
structure ChatData where
  from_ : String
  to_ : String
  channel : String
  deriving DecidableEq, Repr

/-- Payload of `rejoin_channels_response`; `channels` may be absent. -/
structure RejoinData where
  channels : Option (List String)
  deriving DecidableEq, Repr

/-- Payload of `check_private_requests_response`; `requests` may be absent. -/
structure RequestsData where
  requests : Option (List String)
  deriving DecidableEq, Repr

/-- JavaScript truthiness of `currentActiveChannel`: `null` and the empty
string are falsy. -/
def truthy : Option String → Bool
  | none => false
  | some c => c != ""

/-- `toggleChatInput(enabled)` (lines 211-215). -/
def toggleChatInput (enabled : Bool) (s : State) : State :=
  { s with inputEnabled := enabled }

/-- The fallback block shared by the three close buttons and
`close_private_chat` (lines 305-320, 383-398, 456-471, 652-667):
select the first active channel, or nothing. -/
def fallback (s : State) : State × List Emit :=
  let s := { s with currentActiveChannel := s.activeChannels.head? }
  match s.currentActiveChannel with
  | some c =>
    if truthy (some c) then (toggleChatInput true s, [Emit.join c])
    else (toggleChatInput false s, [])
  | none => (toggleChatInput false s, [])

/-! ## Click handlers -/

/-- Click on the Accept button made by `renderAcceptButton(request)`
(lines 226-260). -/
def acceptClick (username request : String) (s : State) : State × List Emit :=
  let s := { s with privateChatRequests := s.privateChatRequests.filter (fun req => req != request) }
  let s := { s with sessionStorage :=
    { s.sessionStorage with privateChatRequests := some (stringifyStrings s.privateChatRequests) } }
  let s := { s with viewedRequests := s.viewedRequests.filter (fun req => req != request) }
  let s := { s with sessionStorage :=
    { s.sessionStorage with viewedRequests := some (stringifyStrings s.viewedRequests) } }
  let displayName := request
  let s :=
    if !s.privateChats.any (fun chat => chat.displayName == displayName) then
      let privateChannel := roomId request username
      let s := { s with privateChats := s.privateChats ++ [PrivateChat.mk displayName privateChannel] }
      { s with sessionStorage :=
        { s.sessionStorage with privateChats := some (stringifyChats s.privateChats) } }
    else s
  let s :=
    if !s.viewedChats.contains displayName then
      let s := { s with viewedChats := s.viewedChats ++ [displayName] }
      { s with sessionStorage :=
        { s.sessionStorage with viewedChats := some (stringifyStrings s.viewedChats) } }
    else s
  let s := { s with currentActiveChannel := some displayName }
  (toggleChatInput true s,
    [Emit.accept_private_chat request username, Emit.join (roomId request username)])

/-- Click on the tab of public channel `channel` (lines 283-295). -/
def channelButtonClick (channel : String) (s : State) : State × List Emit :=
  if s.currentActiveChannel != some channel then
    let s := { s with currentActiveChannel := some channel }
    (toggleChatInput true s, [Emit.join channel])
  else (s, [])

/-- Click on the close button of the tab of public channel `channel`
(lines 300-323). -/
def channelCloseClick (channel : String) (s : State) : State × List Emit :=
  let s := { s with activeChannels := s.activeChannels.filter (fun ch => ch != channel) }
  let s := { s with sessionStorage :=
    { s.sessionStorage with activeChannels := some (stringifyStrings s.activeChannels) } }
  if s.currentActiveChannel == some channel then
    let (s, emitted) := fallback s
    (s, Emit.leave channel :: emitted)
  else (s, [Emit.leave channel])

/-- Click on the tab of the pending request from `request` (lines 350-369). -/
def requestButtonClick (request : String) (s : State) : State × List Emit :=
  if s.currentActiveChannel != some request then
    let s := { s with currentActiveChannel := some request }
    let s :=
      if !s.viewedRequests.contains request then
        let s := { s with viewedRequests := s.viewedRequests ++ [request] }
        { s with sessionStorage :=
          { s.sessionStorage with viewedRequests := some (stringifyStrings s.viewedRequests) } }
      else s
    (toggleChatInput false s, [])
  else (s, [])

/-- Click on the close button of the tab of the pending request from
`request` (lines 374-401). -/
def requestCloseClick (request : String) (s : State) : State × List Emit :=
  let s := { s with privateChatRequests := s.privateChatRequests.filter (fun req => req != request) }
  let s := { s with sessionStorage :=
    { s.sessionStorage with privateChatRequests := some (stringifyStrings s.privateChatRequests) } }
  let s := { s with viewedRequests := s.viewedRequests.filter (fun req => req != request) }
  let s := { s with sessionStorage :=
    { s.sessionStorage with viewedRequests := some (stringifyStrings s.viewedRequests) } }
  if s.currentActiveChannel == some request then fallback s
  else (s, [])

/-- Click on the tab of private chat `chat` (lines 420-439). -/
def chatButtonClick (chat : PrivateChat) (s : State) : State × List Emit :=
  if s.currentActiveChannel != some chat.displayName then
    let s := { s with currentActiveChannel := some chat.displayName }
    let s :=
      if !s.viewedChats.contains chat.displayName then
        let s := { s with viewedChats := s.viewedChats ++ [chat.displayName] }
        { s with sessionStorage :=
          { s.sessionStorage with viewedChats := some (stringifyStrings s.viewedChats) } }
      else s
    (toggleChatInput true s, [Emit.join chat.channel])
  else (s, [])

/-- Click on the close button of the tab of private chat `chat`
(lines 444-474). -/
def chatCloseClick (username : String) (chat : PrivateChat) (s : State) : State × List Emit :=
  let s := { s with privateChats := s.privateChats.filter (fun ch => ch.displayName != chat.displayName) }
  let s := { s with sessionStorage :=
    { s.sessionStorage with privateChats := some (stringifyChats s.privateChats) } }
  let s := { s with viewedChats := s.viewedChats.filter (fun ch => ch != chat.displayName) }
  let s := { s with sessionStorage :=
    { s.sessionStorage with viewedChats := some (stringifyStrings s.viewedChats) } }
  let otherUser := chat.displayName
  let sent := [Emit.leave chat.channel, Emit.close_private_chat username otherUser chat.channel]
  if s.currentActiveChannel == some chat.displayName then
    let (s, emitted) := fallback s
    (s, sent ++ emitted)
  else (s, sent)

/-- Click on the entry `newChannel` of the channel list (lines 497-518). -/
def channelListClick (newChannel : String) (s : State) : State × List Emit :=
  let (s, joined) :=
    if !s.activeChannels.contains newChannel then
      let s := { s with activeChannels := s.activeChannels ++ [newChannel] }
      ({ s with sessionStorage :=
        { s.sessionStorage with activeChannels := some (stringifyStrings s.activeChannels) } },
        [Emit.join newChannel])
    else (s, [])
  if s.currentActiveChannel != some newChannel then
    let s := { s with currentActiveChannel := some newChannel }
    (toggleChatInput true s, joined ++ [Emit.join newChannel])
  else (s, joined)

/-! ## Socket handlers -/

/-- `socket.on('request_private_chat')` (lines 605-611). -/
def onRequestPrivateChat (username : String) (data : RequestData) (s : State) :
    State × List Emit :=
  if data.to_ == username && !s.privateChatRequests.contains data.from_ then
    let s := { s with privateChatRequests := s.privateChatRequests ++ [data.from_] }
    ({ s with sessionStorage :=
      { s.sessionStorage with privateChatRequests := some (stringifyStrings s.privateChatRequests) } },
      [])
  else (s, [])

/-- `socket.on('remove_request')` (lines 614-620). -/
def onRemoveRequest (data : RemoveData) (s : State) : State × List Emit :=
  let s := { s with privateChatRequests := s.privateChatRequests.filter (fun req => req != data.request) }
  let s := { s with sessionStorage :=
    { s.sessionStorage with privateChatRequests := some (stringifyStrings s.privateChatRequests) } }
  let s := { s with viewedRequests := s.viewedRequests.filter (fun req => req != data.request) }
  let s := { s with sessionStorage :=
    { s.sessionStorage with viewedRequests := some (stringifyStrings s.viewedRequests) } }
  (s, [])

/-- `socket.on('start_private_chat')` (lines 623-639). -/
def onStartPrivateChat (username : String) (data : ChatData) (s : State) : State × List Emit :=
  if data.from_ == username || data.to_ == username then
    let otherUser := if data.from_ == username then data.to_ else data.from_
    let displayName := otherUser
    let s := { s with privateChatRequests :=
      s.privateChatRequests.filter (fun req => req != data.from_ && req != data.to_) }
    let s := { s with sessionStorage :=
      { s.sessionStorage with privateChatRequests := some (stringifyStrings s.privateChatRequests) } }
    let s := { s with viewedRequests :=
      s.viewedRequests.filter (fun req => req != data.from_ && req != data.to_) }
    let s := { s with sessionStorage :=
      { s.sessionStorage with viewedRequests := some (stringifyStrings s.viewedRequests) } }
    let s :=
      if !s.privateChats.any (fun chat => chat.displayName == displayName) then
        let s := { s with privateChats := s.privateChats ++ [PrivateChat.mk displayName data.channel] }
        { s with sessionStorage :=
          { s.sessionStorage with privateChats := some (stringifyChats s.privateChats) } }
      else s
    (s, [])
  else (s, [])

/-- `socket.on('close_private_chat')` (lines 642-672). -/
def onClosePrivateChat (username : String) (data : ChatData) (s : State) : State × List Emit :=
  if data.to_ == username || data.from_ == username then
    match s.privateChats.find? (fun chat => chat.channel == data.channel) with
    | some chatToRemove =>
      let s := { s with privateChats := s.privateChats.filter (fun chat => chat.channel != data.channel) }
      let s := { s with sessionStorage :=
        { s.sessionStorage with privateChats := some (stringifyChats s.privateChats) } }
      let s := { s with viewedChats := s.viewedChats.filter (fun ch => ch != chatToRemove.displayName) }
      let s := { s with sessionStorage :=
        { s.sessionStorage with viewedChats := some (stringifyStrings s.viewedChats) } }
      if s.currentActiveChannel == some chatToRemove.displayName then fallback s
      else (s, [])
    | none => (s, [])
  else (s, [])

/-- `socket.on('connect')` (lines 675-688). -/
def onConnect (s : State) : State × List Emit :=
  match s.sessionStorage.username with
  | some username =>
    if !truthy s.sessionStorage.is_logged_out then
      (s, [Emit.rejoin_channels username s.activeChannels, Emit.check_private_requests username]
        ++ s.privateChats.map (fun chat => Emit.join chat.channel))
    else (s, [])
  | none => (s, [])

/-- `socket.on('rejoin_channels_response')` (lines 691-704). -/
def onRejoinChannelsResponse (data : RejoinData) (s : State) : State × List Emit :=
  let s := { s with activeChannels := data.channels.getD [] }
  let s := { s with sessionStorage :=
    { s.sessionStorage with activeChannels := some (stringifyStrings s.activeChannels) } }
  let s :=
    match s.currentActiveChannel with
    | some c =>
      if truthy (some c) && !s.activeChannels.contains c then
        { s with currentActiveChannel := s.activeChannels.head? }
      else s
    | none => s
  match s.currentActiveChannel with
  | some c =>
    if truthy (some c) then (toggleChatInput true s, [Emit.join c])
    else (s, [])
  | none => (s, [])

/-- `socket.on('check_private_requests_response')` (lines 707-714). -/
def onCheckPrivateRequestsResponse (data : RequestsData) (s : State) : State × List Emit :=
  let s := { s with privateChatRequests := data.requests.getD [] }
  ({ s with sessionStorage :=
    { s.sessionStorage with privateChatRequests := some (stringifyStrings s.privateChatRequests) } },
    [])

/-! ## Runs -/

/-- The user actions and inbound events that touch the session state. -/
inductive Action where
  | channelListClick (newChannel : String)
  | channelButtonClick (channel : String)
  | channelCloseClick (channel : String)
  | requestButtonClick (request : String)
  | requestCloseClick (request : String)
  | chatButtonClick (chat : PrivateChat)
  | chatCloseClick (chat : PrivateChat)
  | acceptClick (request : String)
  | request_private_chat (data : RequestData)
  | remove_request (data : RemoveData)
  | start_private_chat (data : ChatData)
  | close_private_chat (data : ChatData)
  | connect
  | rejoin_channels_response (data : RejoinData)
  | check_private_requests_response (data : RequestsData)
  deriving DecidableEq, Repr

/-- Run the handler of one action for the page of user `username`. -/
def step (username : String) (a : Action) (s : State) : State × List Emit :=
  match a with
  | .channelListClick newChannel => channelListClick newChannel s
  | .channelButtonClick channel => channelButtonClick channel s
  | .channelCloseClick channel => channelCloseClick channel s
  | .requestButtonClick request => requestButtonClick request s
  | .requestCloseClick request => requestCloseClick request s
  | .chatButtonClick chat => chatButtonClick chat s
  | .chatCloseClick chat => chatCloseClick username chat s
  | .acceptClick request => acceptClick username request s
  | .request_private_chat data => onRequestPrivateChat username data s
  | .remove_request data => onRemoveRequest data s
  | .start_private_chat data => onStartPrivateChat username data s
  | .close_private_chat data => onClosePrivateChat username data s
  | .connect => onConnect s
  | .rejoin_channels_response data => onRejoinChannelsResponse data s
  | .check_private_requests_response data => onCheckPrivateRequestsResponse data s

/-- Handlers run to completion one after the other; the state after a
sequence of actions. -/
def run (username : String) (actions : List Action) (s : State) : State :=
  actions.foldl (fun s a => (step username a s).1) s

/-- A store with nothing in it, no active conversation and the input off. -/
def emptyStorage : Storage :=
  { activeChannels := none, privateChatRequests := none, viewedRequests := none,
    privateChats := none, viewedChats := none, username := none, is_logged_out := none }

/-- The state of a page loaded with nothing persisted. -/
def emptyState : State :=
  { activeChannels := [], currentActiveChannel := none, privateChatRequests := [],
    viewedRequests := [], privateChats := [], viewedChats := [], inputEnabled := false,
    sessionStorage := emptyStorage }

/-! ## Start-up -/

/-- An exception thrown while the start-up code runs. -/
inductive Thrown where
  | syntaxError
  deriving DecidableEq, Repr

/-- `JSON.parse(sessionStorage.getItem(key)) || []` (lines 191-196).
`parse` is `JSON.parse` read at the type of the collection: `.ok (some xs)`
for a text whose value is an array, `.ok none` for a text whose value is
falsy (`null`), `.error` when it throws. For a missing key `getItem` gives
`null`, which `JSON.parse` converts to the text `null`. -/
def loadKey {α : Type} (parse : String → Except Thrown (Option (List α)))
    (stored : Option String) : Except Thrown (List α) :=
  match parse (stored.getD "null") with
  | .ok (some xs) => .ok xs
  | .ok none => .ok []
  | .error e => .error e

/-- The initialisation of the module-level variables (lines 191-196), in
source order; an exception of `JSON.parse` is not caught and ends it.
`inputEnabled` is the state of the message input in the page as served. -/
def restore (parseStrings : String → Except Thrown (Option (List String)))
    (parseChats : String → Except Thrown (Option (List PrivateChat)))
    (inputEnabled : Bool) (storage : Storage) : Except Thrown State :=
  match loadKey parseStrings storage.activeChannels with
  | .error e => .error e
  | .ok activeChannels =>
    match loadKey parseStrings storage.privateChatRequests with
    | .error e => .error e
    | .ok privateChatRequests =>
      match loadKey parseStrings storage.viewedRequests with
      | .error e => .error e
      | .ok viewedRequests =>
        match loadKey parseChats storage.privateChats with
        | .error e => .error e
        | .ok privateChats =>
          match loadKey parseStrings storage.viewedChats with
          | .error e => .error e
          | .ok viewedChats =>
            .ok { activeChannels := activeChannels, currentActiveChannel := none,
                  privateChatRequests := privateChatRequests, viewedRequests := viewedRequests,
                  privateChats := privateChats, viewedChats := viewedChats,
                  inputEnabled := inputEnabled, sessionStorage := storage }

/-! ## Message display -/

/-- One item of the `load_messages` array. -/
structure StoredMessage where
  username : String
  timestamp : String
  message : String
  deriving DecidableEq, Repr

/-- Payload of `new_message`. -/
structure NewMessageData where
  channel : String
  username : String
  message : String
  deriving DecidableEq, Repr

/-- What a message handler does to the chat box: clear it and show a list of
stored messages, or append one message. -/
inductive Render where
  | replaceAll (messages : List StoredMessage)
  | append (username : String) (message : String)
  deriving DecidableEq, Repr

/-- `socket.on('load_messages')` (lines 549-560); `none` when nothing is
rendered. -/
def onLoadMessages (messages : List StoredMessage) (s : State) : Option Render :=
  if truthy s.currentActiveChannel then some (Render.replaceAll messages)
  else none

/-- `socket.on('new_message')` (lines 562-576); `none` when nothing is
rendered. -/
def onNewMessage (username : String) (data : NewMessageData) (s : State) : Option Render :=
  let privateChat := s.privateChats.find? (fun chat => chat.channel == data.channel)
  let channelName :=
    match privateChat with
    | some chat => chat.displayName
    | none => data.channel
  if s.activeChannels.contains channelName ||
      s.privateChats.any (fun chat => chat.displayName == channelName) then
    if s.currentActiveChannel == some channelName && data.username != username then
      some (Render.append data.username data.message)
    else none
  else none

/-! ## Vocabulary of the properties -/

/-- A local join (click in the channel list) or leave (close button of a
channel tab). -/
inductive ChannelOp where
  | join (channel : String)
  | leave (channel : String)
  deriving DecidableEq, Repr

/-- The channel an operation names. -/
def ChannelOp.channel : ChannelOp → String
  | .join c => c
  | .leave c => c

/-- The handler an operation runs. -/
def ChannelOp.toAction : ChannelOp → Action
  | .join c => Action.channelListClick c
  | .leave c => Action.channelCloseClick c

/-- The last operation of a sequence that names channel `c`, if any. -/
def lastNaming (c : String) (ops : List ChannelOp) : Option ChannelOp :=
  ops.reverse.find? (fun op => op.channel == c)

/-- The page of user `a_b_a` after two private chats were started, with
`a_b` and with `b_a` (both rooms are `a_b_a_b_a`), channel `general` was
joined and the tab of `b_a` was opened. -/
def sharedRoomState : State :=
  run "a_b_a"
    [Action.start_private_chat { from_ := "a_b", to_ := "a_b_a", channel := roomId "a_b" "a_b_a" },
     Action.start_private_chat { from_ := "b_a", to_ := "a_b_a", channel := roomId "b_a" "a_b_a" },
     Action.channelListClick "general",
     Action.chatButtonClick { displayName := "b_a", channel := "a_b_a_b_a" }]
    emptyState

/-- Bob's page with a pending request from alice and nothing else. -/
def bobPending : State :=
  { emptyState with privateChatRequests := ["alice"] }

/-- Bob's page with channel `general` joined and the private chat with alice
active. -/
def bobChatting : State :=
  { emptyState with
    activeChannels := ["general"]
    currentActiveChannel := some "alice"
    privateChats := [{ displayName := "alice", channel := "alice_bob" }]
    viewedChats := ["alice"]
    inputEnabled := true }

/-- Bob's page with the private chat with alice open in a tab, nothing
active. -/
def bobWithChat : State :=
  { emptyState with privateChats := [{ displayName := "alice", channel := "alice_bob" }] }

/-- Whether some conversation is active and its name is not that of a pending
request. -/
def activeNotPending (s : State) : Bool :=
  match s.currentActiveChannel with
  | some c => !s.privateChatRequests.contains c
  | none => false

/-- The message input is enabled if and only if a conversation is active and
it is not a pending request. -/
abbrev InputOk (s : State) : Prop :=
  s.inputEnabled = activeNotPending s

/-- No active channel is named by the empty string or by the name of a pending
request, and no private chat has the display name of a pending request. -/
abbrev Separated (s : State) : Prop :=
  (∀ c ∈ s.activeChannels, c ≠ "" ∧ c ∉ s.privateChatRequests) ∧
  (∀ chat ∈ s.privateChats, chat.displayName ∉ s.privateChatRequests)

/-- Bob's page after alice's request arrived and bob opened its tab. -/
def bobViewingRequest : State :=
  run "bob"
    [Action.request_private_chat { from_ := "alice", to_ := "bob" },
     Action.requestButtonClick "alice"]
    emptyState

/-- Bob's page after alice's request arrived, bob opened its tab (the Accept
button is shown) and the inbound `remove_request` for alice arrived. -/
def bobAfterWithdrawal : State :=
  run "bob"
    [Action.request_private_chat { from_ := "alice", to_ := "bob" },
     Action.requestButtonClick "alice",
     Action.remove_request { request := "alice" }]
    emptyState

/-- Bob's page with a persisted identity, two channels and one private
chat. -/
def bobReconnecting : State :=
  { emptyState with
    activeChannels := ["general", "random"]
    privateChats := [{ displayName := "alice", channel := "alice_bob" }]
    sessionStorage := { emptyStorage with username := some "bob" } }

/-- A stand-in for `JSON.parse` in the examples: it agrees with `JSON.parse`
on the texts `null` (the value null), `[]` (the empty array) and `[` (a
syntax error), the only texts the examples store; every other text is
rejected too. -/
def parseSample {α : Type} (text : String) : Except Thrown (Option (List α)) :=
  if text = "null" then .ok none
  else if text = "[]" then .ok (some [])
  else .error Thrown.syntaxError

/-- A `load_messages` event: the history of `room`, which the server sends
after a `join` of that room. The handler receives the `messages` array
alone. -/
structure LoadMessagesEvent where
  room : String
  messages : List StoredMessage
  deriving DecidableEq, Repr

/-- The room identifier maps to the active conversation: a private chat with
that channel is the active one, or the room's own name is. -/
abbrev roomMapsToActive (s : State) (room : String) : Prop :=
  (∃ chat ∈ s.privateChats, chat.channel = room ∧
    s.currentActiveChannel = some chat.displayName) ∨
  s.currentActiveChannel = some room

/-- Bob's page after he opened channel `general` and then channel
`random`. -/
def bobTwoChannels : State :=
  run "bob" [Action.channelListClick "general", Action.channelListClick "random"] emptyState

/-- The history of channel `general`, one message from alice. -/
def generalHistory : LoadMessagesEvent :=
  { room := "general", messages := [{ username := "alice", timestamp := "t", message := "hi" }] }

/-- The history of channel `random`, one message from alice. -/
def randomHistory : LoadMessagesEvent :=
  { room := "random", messages := [{ username := "alice", timestamp := "t", message := "hi" }] }

/-- Each of the five snapshot keys holds the serialisation of its in-memory
collection. -/
abbrev Synced (s : State) : Prop :=
  s.sessionStorage.activeChannels = some (stringifyStrings s.activeChannels) ∧
  s.sessionStorage.privateChatRequests = some (stringifyStrings s.privateChatRequests) ∧
  s.sessionStorage.viewedRequests = some (stringifyStrings s.viewedRequests) ∧
  s.sessionStorage.privateChats = some (stringifyChats s.privateChats) ∧
  s.sessionStorage.viewedChats = some (stringifyStrings s.viewedChats)

/-- An empty page whose five snapshot keys all hold `[]`. -/
def syncedEmpty : State :=
  { emptyState with
    sessionStorage := { emptyStorage with
      activeChannels := some "[]", privateChatRequests := some "[]",
      viewedRequests := some "[]", privateChats := some "[]", viewedChats := some "[]" } }

/-- Every viewed marker of a request belongs to a pending request. -/
abbrev ViewedPending (s : State) : Prop :=
  ∀ r ∈ s.viewedRequests, r ∈ s.privateChatRequests

/-- Bob's page after alice's request arrived, bob opened its tab, and a
`check_private_requests_response` without alice's request arrived. -/
def bobAfterRecheck : State :=
  run "bob"
    [Action.request_private_chat { from_ := "alice", to_ := "bob" },
     Action.requestButtonClick "alice",
     Action.check_private_requests_response { requests := some [] }]
    emptyState

/-- The page of user `a_b_a` after private chats with `a_b` and with `b_a`
were started (both rooms are `a_b_a_b_a`), the tab of `b_a` was opened, and
`b_a` closed the private chat. -/
def sharedRoomClosed : State :=
  run "a_b_a"
    [Action.start_private_chat { from_ := "a_b", to_ := "a_b_a", channel := roomId "a_b" "a_b_a" },
     Action.start_private_chat { from_ := "b_a", to_ := "a_b_a", channel := roomId "b_a" "a_b_a" },
     Action.chatButtonClick { displayName := "b_a", channel := "a_b_a_b_a" },
     Action.close_private_chat { from_ := "b_a", to_ := "a_b_a", channel := "a_b_a_b_a" }]
    emptyState

/-! # Theorems -/

/-! ## String order -/

theorem unitsLt_asymm : ∀ (a b : List Nat), unitsLt a b = true → unitsLt b a = false
  | [], [], h => by simp [unitsLt] at h
  | [], _ :: _, _ => by simp [unitsLt]
  | _ :: _, [], h => by simp [unitsLt] at h
  | x :: xs, y :: ys, h => by
    simp only [unitsLt] at h ⊢
    by_cases hxy : x < y
    · have : ¬ y < x := by omega
      simp [this, hxy]
    · by_cases hyx : y < x
      · simp [hxy, hyx] at h
      · simp only [hxy, hyx, if_false] at h ⊢
        exact unitsLt_asymm xs ys h

theorem unitsLt_connex : ∀ (a b : List Nat), unitsLt a b = false → unitsLt b a = false → a = b
  | [], [], _, _ => rfl
  | [], _ :: _, h, _ => by simp [unitsLt] at h
  | _ :: _, [], _, h => by simp [unitsLt] at h
  | x :: xs, y :: ys, h, h' => by
    simp only [unitsLt] at h h'
    by_cases hxy : x < y
    · simp [hxy] at h
    · by_cases hyx : y < x
      · simp [hyx] at h'
      · simp only [hxy, hyx, if_false] at h h'
        have hx : x = y := by omega
        rw [hx, unitsLt_connex xs ys h h']

theorem utf16_ne_nil (c : Char) : utf16 c ≠ [] := by
  unfold utf16; split <;> simp

theorem char_range (c : Char) : c.toNat < 0xD800 ∨ (0xDFFF < c.toNat ∧ c.toNat < 0x110000) :=
  c.valid

theorem char_eq_of_toNat {c d : Char} (h : c.toNat = d.toNat) : c = d := by
  apply Char.ext
  apply UInt32.ext
  exact h

theorem unitsOf_injective : ∀ (l₁ l₂ : List Char), unitsOf l₁ = unitsOf l₂ → l₁ = l₂
  | [], [], _ => rfl
  | [], d :: ds, h => by
    simp only [unitsOf] at h
    have := utf16_ne_nil d
    cases hd : utf16 d with
    | nil => exact absurd hd this
    | cons u us => rw [hd] at h; simp at h
  | c :: cs, [], h => by
    simp only [unitsOf] at h
    have := utf16_ne_nil c
    cases hc : utf16 c with
    | nil => exact absurd hc this
    | cons u us => rw [hc] at h; simp at h
  | c :: cs, d :: ds, h => by
    have hc := char_range c
    have hd := char_range d
    simp only [unitsOf, utf16] at h
    by_cases h1 : c.toNat < 0x10000 <;> by_cases h2 : d.toNat < 0x10000
    · simp only [h1, h2, if_true, List.singleton_append, List.cons.injEq] at h
      rw [char_eq_of_toNat h.1, unitsOf_injective cs ds h.2]
    · simp only [h1, h2, if_true, if_false, List.singleton_append, List.cons_append,
        List.nil_append, List.cons.injEq] at h
      omega
    · simp only [h1, h2, if_true, if_false, List.singleton_append, List.cons_append,
        List.nil_append, List.cons.injEq] at h
      omega
    · simp only [h1, h2, if_false, List.cons_append, List.nil_append, List.cons.injEq] at h
      have : c.toNat = d.toNat := by omega
      rw [char_eq_of_toNat this, unitsOf_injective cs ds h.2.2]

theorem codeUnits_injective {a b : String} (h : codeUnits a = codeUnits b) : a = b := by
  cases a; cases b
  simp only [codeUnits] at h
  rw [unitsOf_injective _ _ h]

theorem jsLt_asymm {a b : String} (h : jsLt a b = true) : jsLt b a = false :=
  unitsLt_asymm _ _ h

theorem jsLt_connex {a b : String} (h : jsLt a b = false) (h' : jsLt b a = false) : a = b :=
  codeUnits_injective (unitsLt_connex _ _ h h')

theorem jsSort_pair (a b : String) :
    jsSort [a, b] = if jsLt b a then [b, a] else [a, b] := by
  simp [jsSort, jsInsert]

/-- C1: the room identifier `[A, B].sort().join('_')` does not depend on which
of the two users computes it: `roomId A B = roomId B A`. -/
theorem roomId_symmetric (A B : String) : roomId A B = roomId B A := by
  unfold roomId
  rw [jsSort_pair, jsSort_pair]
  cases hab : jsLt A B <;> cases hba : jsLt B A
  · rw [jsLt_connex hab hba]
  · simp
  · simp
  · rw [jsLt_asymm hab] at hba; cases hba

/-! ## Join and leave of public channels -/

theorem channelListClick_activeChannels (c : String) (s : State) :
    (channelListClick c s).1.activeChannels =
      if c ∈ s.activeChannels then s.activeChannels else s.activeChannels ++ [c] := by
  unfold channelListClick
  by_cases h : c ∈ s.activeChannels <;> by_cases h' : s.currentActiveChannel = some c <;>
    simp [h, h', toggleChatInput]

theorem fallback_activeChannels (s : State) : (fallback s).1.activeChannels = s.activeChannels := by
  unfold fallback
  cases h : s.activeChannels.head? with
  | none => simp [h, toggleChatInput]
  | some c => by_cases hc : c = "" <;> simp [h, hc, truthy, toggleChatInput]

theorem channelCloseClick_activeChannels (c : String) (s : State) :
    (channelCloseClick c s).1.activeChannels = s.activeChannels.filter (fun ch => ch != c) := by
  unfold channelCloseClick
  by_cases h' : s.currentActiveChannel = some c <;> simp [h', fallback_activeChannels]

theorem run_cons (username : String) (a : Action) (as : List Action) (s : State) :
    run username (a :: as) s = run username as (step username a s).1 := rfl

theorem lastNaming_cons (c : String) (op : ChannelOp) (ops : List ChannelOp) :
    lastNaming c (op :: ops) =
      (lastNaming c ops).or (if op.channel = c then some op else none) := by
  unfold lastNaming
  rw [List.reverse_cons, List.find?_append]
  by_cases h : op.channel = c
  · simp [h, List.find?]
  · have hb : (op.channel == c) = false := by simpa using h
    simp [h, hb, List.find?]

theorem channel_ops_general (username : String) (ops : List ChannelOp) :
    ∀ s : State, s.activeChannels.Nodup →
      (run username (ops.map ChannelOp.toAction) s).activeChannels.Nodup ∧
      ∀ c, c ∈ (run username (ops.map ChannelOp.toAction) s).activeChannels ↔
        (lastNaming c ops = some (ChannelOp.join c) ∨
          (lastNaming c ops = none ∧ c ∈ s.activeChannels)) := by
  induction ops with
  | nil => intro s hs; simp [run, lastNaming, hs]
  | cons op ops ih =>
    intro s hs
    rw [List.map_cons, run_cons]
    cases op with
    | join d =>
      have hact : (step username (ChannelOp.join d).toAction s).1.activeChannels =
          if d ∈ s.activeChannels then s.activeChannels else s.activeChannels ++ [d] :=
        channelListClick_activeChannels d s
      have hnd : (step username (ChannelOp.join d).toAction s).1.activeChannels.Nodup := by
        rw [hact]; split
        · exact hs
        · rename_i hd
          exact List.Nodup.append hs (List.nodup_singleton d) (by simpa using hd)
      obtain ⟨h1, h2⟩ := ih _ hnd
      refine ⟨h1, fun c => ?_⟩
      rw [h2 c, lastNaming_cons, hact]
      cases hl : lastNaming c ops with
      | some op' => simp
      | none =>
        by_cases hdc : d = c
        · subst hdc; by_cases hd : d ∈ s.activeChannels <;> simp [ChannelOp.channel, hd]
        · have hcd : ¬ c = d := fun h => hdc h.symm
          by_cases hd : d ∈ s.activeChannels <;> simp [ChannelOp.channel, hd, hdc, hcd]
    | leave d =>
      have hact : (step username (ChannelOp.leave d).toAction s).1.activeChannels =
          s.activeChannels.filter (fun ch => ch != d) :=
        channelCloseClick_activeChannels d s
      have hnd : (step username (ChannelOp.leave d).toAction s).1.activeChannels.Nodup := by
        rw [hact]; exact hs.filter _
      obtain ⟨h1, h2⟩ := ih _ hnd
      refine ⟨h1, fun c => ?_⟩
      rw [h2 c, lastNaming_cons, hact]
      cases hl : lastNaming c ops with
      | some op' => simp
      | none =>
        by_cases hdc : d = c
        · subst hdc; simp [ChannelOp.channel]
        · have hcd : ¬ c = d := fun h => hdc h.symm
          simp [ChannelOp.channel, hdc, hcd]

/-- C2: after any sequence of local joins (channel list clicks) and leaves
(channel tab closes) run from a state with no active channel, `activeChannels`
has no duplicates, and a channel is in it exactly when the last operation of
the sequence that names it is a join. -/
theorem channel_ops_set_semantics (username : String) (ops : List ChannelOp) (s : State)
    (h : s.activeChannels = []) :
    (run username (ops.map ChannelOp.toAction) s).activeChannels.Nodup ∧
    ∀ c, c ∈ (run username (ops.map ChannelOp.toAction) s).activeChannels ↔
      lastNaming c ops = some (ChannelOp.join c) := by
  obtain ⟨h1, h2⟩ := channel_ops_general username ops s (by simp [h])
  refine ⟨h1, fun c => ?_⟩
  rw [h2 c, h]
  simp

theorem channel_ops_set_semantics_witness :
    emptyState.activeChannels = [] ∧
    (run "bob" ([ChannelOp.join "general", ChannelOp.join "random", ChannelOp.join "general",
        ChannelOp.leave "random"].map ChannelOp.toAction) emptyState).activeChannels.Nodup ∧
    ("random" ∈ (run "bob" ([ChannelOp.join "general", ChannelOp.join "random",
        ChannelOp.join "general", ChannelOp.leave "random"].map ChannelOp.toAction)
        emptyState).activeChannels ↔
      lastNaming "random" [ChannelOp.join "general", ChannelOp.join "random",
        ChannelOp.join "general", ChannelOp.leave "random"] = some (ChannelOp.join "random")) :=
  ⟨rfl,
    (channel_ops_set_semantics "bob" [ChannelOp.join "general", ChannelOp.join "random",
      ChannelOp.join "general", ChannelOp.leave "random"] emptyState rfl).1,
    (channel_ops_set_semantics "bob" [ChannelOp.join "general", ChannelOp.join "random",
      ChannelOp.join "general", ChannelOp.leave "random"] emptyState rfl).2 "random"⟩

/-! ## Reconciliation of public channels -/

/-- C3: after `rejoin_channels_response` the active channels are exactly the
channels of the payload, and the empty list when the payload carries none,
whatever the state was before. -/
theorem rejoin_replaces_activeChannels (s : State) :
    (∀ S : List String,
      (onRejoinChannelsResponse { channels := some S } s).1.activeChannels = S) ∧
    (onRejoinChannelsResponse { channels := none } s).1.activeChannels = [] := by
  constructor
  · intro S
    unfold onRejoinChannelsResponse
    simp only [Option.getD_some]
    split <;> split <;> (try split) <;> (try split) <;> simp_all [toggleChatInput]
  · unfold onRejoinChannelsResponse
    simp only [Option.getD_none]
    split <;> split <;> (try split) <;> (try split) <;> simp_all [toggleChatInput]

/-! ## Removing twice -/

theorem fallback_fst (s : State) :
    (fallback s).1 = { s with currentActiveChannel := s.activeChannels.head?,
                              inputEnabled := truthy s.activeChannels.head? } := by
  unfold fallback
  cases h : s.activeChannels.head? with
  | none => simp [h, toggleChatInput, truthy]
  | some c => by_cases hc : c = "" <;> simp [h, hc, truthy, toggleChatInput]

theorem requestCloseClick_fst (x : String) (s : State) :
    (requestCloseClick x s).1 =
      if s.currentActiveChannel = some x then
        { s with
          privateChatRequests := s.privateChatRequests.filter (fun req => req != x)
          viewedRequests := s.viewedRequests.filter (fun req => req != x)
          sessionStorage := { s.sessionStorage with
            privateChatRequests :=
              some (stringifyStrings (s.privateChatRequests.filter (fun req => req != x)))
            viewedRequests :=
              some (stringifyStrings (s.viewedRequests.filter (fun req => req != x))) }
          currentActiveChannel := s.activeChannels.head?
          inputEnabled := truthy s.activeChannels.head? }
      else
        { s with
          privateChatRequests := s.privateChatRequests.filter (fun req => req != x)
          viewedRequests := s.viewedRequests.filter (fun req => req != x)
          sessionStorage := { s.sessionStorage with
            privateChatRequests :=
              some (stringifyStrings (s.privateChatRequests.filter (fun req => req != x)))
            viewedRequests :=
              some (stringifyStrings (s.viewedRequests.filter (fun req => req != x))) } } := by
  unfold requestCloseClick
  by_cases h : s.currentActiveChannel = some x <;> simp [h, fallback_fst]

theorem requestCloseClick_idem (x : String) (s : State) :
    (requestCloseClick x (requestCloseClick x s).1).1 = (requestCloseClick x s).1 := by
  rw [requestCloseClick_fst x s]
  by_cases h : s.currentActiveChannel = some x
  · rw [if_pos h, requestCloseClick_fst]
    split <;> simp [List.filter_filter]
  · rw [if_neg h, requestCloseClick_fst]
    simp [h, List.filter_filter]

theorem onRemoveRequest_idem (data : RemoveData) (s : State) :
    (onRemoveRequest data (onRemoveRequest data s).1).1 = (onRemoveRequest data s).1 := by
  simp [onRemoveRequest, List.filter_filter]

theorem chatCloseClick_fst (username : String) (chat : PrivateChat) (s : State) :
    (chatCloseClick username chat s).1 =
      { s with
        privateChats := s.privateChats.filter (fun ch => ch.displayName != chat.displayName)
        viewedChats := s.viewedChats.filter (fun ch => ch != chat.displayName)
        sessionStorage := { s.sessionStorage with
          privateChats := some (stringifyChats
            (s.privateChats.filter (fun ch => ch.displayName != chat.displayName)))
          viewedChats := some (stringifyStrings
            (s.viewedChats.filter (fun ch => ch != chat.displayName))) }
        currentActiveChannel :=
          if s.currentActiveChannel = some chat.displayName then s.activeChannels.head?
          else s.currentActiveChannel
        inputEnabled :=
          if s.currentActiveChannel = some chat.displayName then truthy s.activeChannels.head?
          else s.inputEnabled } := by
  unfold chatCloseClick
  by_cases h : s.currentActiveChannel = some chat.displayName <;> simp [h, fallback_fst]

theorem chatCloseClick_idem (username : String) (chat : PrivateChat) (s : State) :
    (chatCloseClick username chat (chatCloseClick username chat s).1).1 =
      (chatCloseClick username chat s).1 := by
  rw [chatCloseClick_fst username chat (chatCloseClick username chat s).1,
    chatCloseClick_fst username chat s]
  by_cases h : s.currentActiveChannel = some chat.displayName
  · by_cases h' : s.activeChannels.head? = some chat.displayName <;>
      simp [h, h', List.filter_filter]
  · simp [h, List.filter_filter]

theorem onClosePrivateChat_not_party (username : String) (data : ChatData) (s : State)
    (h : ¬ (data.to_ = username ∨ data.from_ = username)) :
    onClosePrivateChat username data s = (s, []) := by
  unfold onClosePrivateChat
  simp only [not_or] at h
  simp [h.1, h.2]

theorem onClosePrivateChat_not_found (username : String) (data : ChatData) (s : State)
    (h : s.privateChats.find? (fun chat => chat.channel == data.channel) = none) :
    onClosePrivateChat username data s = (s, []) := by
  unfold onClosePrivateChat
  rw [h]
  simp

theorem onClosePrivateChat_found (username : String) (data : ChatData) (s : State)
    (chatToRemove : PrivateChat)
    (hp : data.to_ = username ∨ data.from_ = username)
    (h : s.privateChats.find? (fun chat => chat.channel == data.channel) = some chatToRemove) :
    (onClosePrivateChat username data s).1 =
      { s with
        privateChats := s.privateChats.filter (fun chat => chat.channel != data.channel)
        viewedChats := s.viewedChats.filter (fun ch => ch != chatToRemove.displayName)
        sessionStorage := { s.sessionStorage with
          privateChats := some (stringifyChats
            (s.privateChats.filter (fun chat => chat.channel != data.channel)))
          viewedChats := some (stringifyStrings
            (s.viewedChats.filter (fun ch => ch != chatToRemove.displayName))) }
        currentActiveChannel :=
          if s.currentActiveChannel = some chatToRemove.displayName then s.activeChannels.head?
          else s.currentActiveChannel
        inputEnabled :=
          if s.currentActiveChannel = some chatToRemove.displayName then
            truthy s.activeChannels.head?
          else s.inputEnabled } := by
  unfold onClosePrivateChat
  rw [h]
  have hp' : (data.to_ == username || data.from_ == username) = true := by simpa using hp
  by_cases hc : s.currentActiveChannel = some chatToRemove.displayName <;>
    simp [hp', hc, fallback_fst]

theorem find?_channel_filter (channel : String) (l : List PrivateChat) :
    (l.filter (fun chat => chat.channel != channel)).find? (fun chat => chat.channel == channel)
      = none := by
  rw [List.find?_eq_none]
  intro x hx
  simp only [List.mem_filter] at hx
  simpa using hx.2

theorem onClosePrivateChat_idem (username : String) (data : ChatData) (s : State) :
    (onClosePrivateChat username data (onClosePrivateChat username data s).1).1 =
      (onClosePrivateChat username data s).1 := by
  by_cases hp : data.to_ = username ∨ data.from_ = username
  · cases hf : s.privateChats.find? (fun chat => chat.channel == data.channel) with
    | none => rw [onClosePrivateChat_not_found username data s hf]
              rw [onClosePrivateChat_not_found username data s hf]
    | some r =>
      rw [onClosePrivateChat_not_found]
      rw [onClosePrivateChat_found username data s r hp hf]
      exact find?_channel_filter _ _
  · rw [onClosePrivateChat_not_party username data s hp]
    rw [onClosePrivateChat_not_party username data s hp]

/-- C4: closing the tab of a pending request, an inbound `remove_request`,
closing the tab of a private chat, and an inbound `close_private_chat`, each
done a second time leave the whole state (the five collections, the active
conversation, the input switch and the stored snapshot) as the first time
left it. -/
theorem remove_twice_is_remove_once (username x : String) (data : RemoveData)
    (chat : PrivateChat) (closing : ChatData) (s : State) :
    (requestCloseClick x (requestCloseClick x s).1).1 = (requestCloseClick x s).1 ∧
    (onRemoveRequest data (onRemoveRequest data s).1).1 = (onRemoveRequest data s).1 ∧
    (chatCloseClick username chat (chatCloseClick username chat s).1).1 =
      (chatCloseClick username chat s).1 ∧
    (onClosePrivateChat username closing (onClosePrivateChat username closing s).1).1 =
      (onClosePrivateChat username closing s).1 :=
  ⟨requestCloseClick_idem x s, onRemoveRequest_idem data s, chatCloseClick_idem username chat s,
    onClosePrivateChat_idem username closing s⟩

/-! ## Fallback after a removal -/

theorem channelCloseClick_fst (channel : String) (s : State) :
    (channelCloseClick channel s).1 =
      { s with
        activeChannels := s.activeChannels.filter (fun ch => ch != channel)
        sessionStorage := { s.sessionStorage with
          activeChannels :=
            some (stringifyStrings (s.activeChannels.filter (fun ch => ch != channel))) }
        currentActiveChannel :=
          if s.currentActiveChannel = some channel then
            (s.activeChannels.filter (fun ch => ch != channel)).head?
          else s.currentActiveChannel
        inputEnabled :=
          if s.currentActiveChannel = some channel then
            truthy (s.activeChannels.filter (fun ch => ch != channel)).head?
          else s.inputEnabled } := by
  unfold channelCloseClick
  by_cases h : s.currentActiveChannel = some channel <;> simp [h, fallback_fst]

/-- Closing the active channel's tab, closing the active private chat's tab,
and an inbound `close_private_chat` whose first entry found by channel is the
active conversation, all select the first remaining active channel, or
nothing. -/
theorem fallback_after_close (username : String) (s : State) :
    (∀ channel, s.currentActiveChannel = some channel →
      (channelCloseClick channel s).1.currentActiveChannel =
        (channelCloseClick channel s).1.activeChannels.head?) ∧
    (∀ chat : PrivateChat, s.currentActiveChannel = some chat.displayName →
      (chatCloseClick username chat s).1.currentActiveChannel =
        (chatCloseClick username chat s).1.activeChannels.head?) ∧
    (∀ (data : ChatData) (chatToRemove : PrivateChat),
      (data.to_ = username ∨ data.from_ = username) →
      s.privateChats.find? (fun chat => chat.channel == data.channel) = some chatToRemove →
      s.currentActiveChannel = some chatToRemove.displayName →
      (onClosePrivateChat username data s).1.currentActiveChannel =
        (onClosePrivateChat username data s).1.activeChannels.head?) := by
  refine ⟨fun channel h => ?_, fun chat h => ?_, fun data r hp hf h => ?_⟩
  · rw [channelCloseClick_fst]; simp [h]
  · rw [chatCloseClick_fst]; simp [h]
  · rw [onClosePrivateChat_found username data s r hp hf]; simp [h]

/-- C5: on the page of `a_b_a`, where the private chats with `a_b` and with
`b_a` share the room `a_b_a_b_a` and the chat with `b_a` is active, the
inbound `close_private_chat` from `b_a` removes the active chat, one active
channel (`general`) remains, and the active conversation is still `b_a`
instead of `general`. -/
theorem close_private_chat_keeps_removed_chat_active :
    sharedRoomState.currentActiveChannel = some "b_a" ∧
    { displayName := "b_a", channel := "a_b_a_b_a" } ∈ sharedRoomState.privateChats ∧
    (onClosePrivateChat "a_b_a" { from_ := "b_a", to_ := "a_b_a", channel := "a_b_a_b_a" }
      sharedRoomState).1.privateChats = [] ∧
    (onClosePrivateChat "a_b_a" { from_ := "b_a", to_ := "a_b_a", channel := "a_b_a_b_a" }
      sharedRoomState).1.activeChannels = ["general"] ∧
    (onClosePrivateChat "a_b_a" { from_ := "b_a", to_ := "a_b_a", channel := "a_b_a_b_a" }
      sharedRoomState).1.currentActiveChannel = some "b_a" := by
  decide

/-! ## Accepting a request -/

theorem any_displayName_false {l : List PrivateChat} {name : String}
    (h : ∀ chat ∈ l, chat.displayName ≠ name) :
    l.any (fun chat => chat.displayName == name) = false := by
  rw [List.any_eq_false]
  intro x hx
  simpa using h x hx

theorem any_displayName_true {l : List PrivateChat} {name : String}
    (h : ∃ chat ∈ l, chat.displayName = name) :
    l.any (fun chat => chat.displayName == name) = true := by
  rw [List.any_eq_true]
  obtain ⟨x, hx, hn⟩ := h
  exact ⟨x, hx, by simpa using hn⟩

/-- C7: when `u` accepts the request of `r` and no private chat with display
name `r` exists, `r` is filtered out of `privateChatRequests` and of
`viewedRequests`, exactly the chat `{displayName: r, channel: roomId r u}` is
appended to `privateChats`, and `r` is the active conversation. -/
theorem accept_creates_chat (u r : String) (s : State)
    (h : ∀ chat ∈ s.privateChats, chat.displayName ≠ r) :
    (acceptClick u r s).1.privateChatRequests =
      s.privateChatRequests.filter (fun req => req != r) ∧
    r ∉ (acceptClick u r s).1.privateChatRequests ∧
    (acceptClick u r s).1.viewedRequests = s.viewedRequests.filter (fun req => req != r) ∧
    r ∉ (acceptClick u r s).1.viewedRequests ∧
    (acceptClick u r s).1.privateChats =
      s.privateChats ++ [{ displayName := r, channel := roomId r u }] ∧
    (acceptClick u r s).1.currentActiveChannel = some r := by
  have ha := any_displayName_false h
  unfold acceptClick
  by_cases hv : r ∈ s.viewedChats <;>
    simp [ha, hv, toggleChatInput, List.mem_filter]

theorem accept_creates_chat_witness :
    (∀ chat ∈ bobPending.privateChats, chat.displayName ≠ "alice") ∧
    (acceptClick "bob" "alice" bobPending).1.privateChatRequests = [] ∧
    (acceptClick "bob" "alice" bobPending).1.privateChats =
      [{ displayName := "alice", channel := "alice_bob" }] ∧
    (acceptClick "bob" "alice" bobPending).1.currentActiveChannel = some "alice" :=
  ⟨by decide,
    (accept_creates_chat "bob" "alice" bobPending (by decide)).1,
    (accept_creates_chat "bob" "alice" bobPending (by decide)).2.2.2.2.1,
    (accept_creates_chat "bob" "alice" bobPending (by decide)).2.2.2.2.2⟩

/-! ## Inbound `start_private_chat` -/

/-- C8: for the page of user `u`, an inbound `start_private_chat` naming `u`
as `from` or `to` filters both names out of `privateChatRequests` and
`viewedRequests`, and appends `{displayName: other party, channel: the event's
channel}` exactly when no private chat with that display name exists
(otherwise `privateChats` is unchanged); an event naming `u` as neither party
changes nothing. -/
theorem start_private_chat_effect (u : String) (data : ChatData) (s : State) :
    ((data.from_ = u ∨ data.to_ = u) →
      (onStartPrivateChat u data s).1.privateChatRequests =
        s.privateChatRequests.filter (fun req => req != data.from_ && req != data.to_) ∧
      (onStartPrivateChat u data s).1.viewedRequests =
        s.viewedRequests.filter (fun req => req != data.from_ && req != data.to_) ∧
      ∀ other, ((data.from_ = u ∧ other = data.to_) ∨ (data.from_ ≠ u ∧ other = data.from_)) →
        ((∀ chat ∈ s.privateChats, chat.displayName ≠ other) →
          (onStartPrivateChat u data s).1.privateChats =
            s.privateChats ++ [{ displayName := other, channel := data.channel }]) ∧
        ((∃ chat ∈ s.privateChats, chat.displayName = other) →
          (onStartPrivateChat u data s).1.privateChats = s.privateChats)) ∧
    ((data.from_ ≠ u ∧ data.to_ ≠ u) → onStartPrivateChat u data s = (s, [])) := by
  constructor
  · intro hp
    have hp' : (data.from_ == u || data.to_ == u) = true := by simpa using hp
    refine ⟨?_, ?_, ?_⟩
    · unfold onStartPrivateChat
      simp only [hp', if_true]
      split <;> split <;> rfl
    · unfold onStartPrivateChat
      simp only [hp', if_true]
      split <;> split <;> rfl
    · intro other ho
      have hother : (if (data.from_ == u) = true then data.to_ else data.from_) = other := by
        rcases ho with ⟨h1, h2⟩ | ⟨h1, h2⟩
        · simp [h1, h2]
        · simp [h1, h2]
      constructor
      · intro hno
        have ha := any_displayName_false hno
        unfold onStartPrivateChat
        simp only [hp', if_true, hother, ha]
        simp
      · intro hex
        have ha := any_displayName_true hex
        unfold onStartPrivateChat
        simp only [hp', if_true, hother, ha]
        simp
  · intro hn
    unfold onStartPrivateChat
    simp [hn.1, hn.2]

theorem start_private_chat_effect_witness :
    ("alice" = "alice" ∨ "bob" = "alice") ∧
    (∀ chat ∈ emptyState.privateChats, chat.displayName ≠ "bob") ∧
    (onStartPrivateChat "alice" { from_ := "alice", to_ := "bob", channel := "alice_bob" }
      emptyState).1.privateChats = [{ displayName := "bob", channel := "alice_bob" }] ∧
    (("alice" ≠ "carol" ∧ "bob" ≠ "carol") ∧
      onStartPrivateChat "carol" { from_ := "alice", to_ := "bob", channel := "alice_bob" }
        bobPending = (bobPending, [])) :=
  ⟨Or.inl rfl, by decide,
    (((start_private_chat_effect "alice"
      { from_ := "alice", to_ := "bob", channel := "alice_bob" } emptyState).1
        (Or.inl rfl)).2.2 "bob" (Or.inl ⟨rfl, rfl⟩)).1 (by decide),
    ⟨by decide, (start_private_chat_effect "carol"
      { from_ := "alice", to_ := "bob", channel := "alice_bob" } bobPending).2 (by decide)⟩⟩

/-! ## Inbound `close_private_chat` -/

theorem filter_channel_of_find?_none {channel : String} {l : List PrivateChat}
    (h : l.find? (fun chat => chat.channel == channel) = none) :
    l.filter (fun chat => chat.channel != channel) = l := by
  rw [List.filter_eq_self]
  rw [List.find?_eq_none] at h
  intro x hx
  simpa using h x hx

theorem onClosePrivateChat_snd_found (username : String) (data : ChatData) (s : State)
    (chatToRemove : PrivateChat)
    (hp : data.to_ = username ∨ data.from_ = username)
    (h : s.privateChats.find? (fun chat => chat.channel == data.channel) = some chatToRemove) :
    (onClosePrivateChat username data s).2 =
      if s.currentActiveChannel = some chatToRemove.displayName then
        match s.activeChannels.head? with
        | some c => if c = "" then [] else [Emit.join c]
        | none => []
      else [] := by
  unfold onClosePrivateChat
  rw [h]
  have hp' : (data.to_ == username || data.from_ == username) = true := by simpa using hp
  by_cases hc : s.currentActiveChannel = some chatToRemove.displayName
  · unfold fallback
    cases hh : s.activeChannels.head? with
    | none => simp [hp', hc, hh]
    | some c => by_cases hce : c = "" <;> simp [hp', hc, hh, hce, truthy]
  · simp [hp', hc]

/-- C9 as stated fails: bob is looking at his private chat with alice and has
channel `general` open; alice's `close_private_chat` makes the handler emit
`join` for `general`. -/
theorem close_private_chat_emits_join :
    ("bob" = "bob" ∨ "alice" = "bob") ∧
    (onClosePrivateChat "bob" { from_ := "alice", to_ := "bob", channel := "alice_bob" }
      bobChatting).1.privateChats = [] ∧
    (onClosePrivateChat "bob" { from_ := "alice", to_ := "bob", channel := "alice_bob" }
      bobChatting).2 = [Emit.join "general"] := by
  decide

/-- C9 amended: an inbound `close_private_chat` naming the current user
removes every private chat whose channel is the event's channel; it never
emits `close_private_chat` or `leave`; it emits at most one event, which is
a `join` for the first active channel, that channel not being the empty
string, and only when the entry found by channel was the active
conversation; in exactly that case the `join` is emitted, otherwise nothing
is. -/
theorem close_private_chat_effect (u : String) (data : ChatData) (s : State)
    (hp : data.to_ = u ∨ data.from_ = u) :
    (onClosePrivateChat u data s).1.privateChats =
      s.privateChats.filter (fun chat => chat.channel != data.channel) ∧
    (∀ e ∈ (onClosePrivateChat u data s).2,
      ∃ c, e = Emit.join c ∧ c ≠ "" ∧ s.activeChannels.head? = some c ∧
        (onClosePrivateChat u data s).1.currentActiveChannel = some c) ∧
    (onClosePrivateChat u data s).2.length ≤ 1 ∧
    ((onClosePrivateChat u data s).2 ≠ [] →
      ∃ chatToRemove,
        s.privateChats.find? (fun chat => chat.channel == data.channel) = some chatToRemove ∧
        s.currentActiveChannel = some chatToRemove.displayName) ∧
    (∀ c chatToRemove,
      s.privateChats.find? (fun chat => chat.channel == data.channel) = some chatToRemove →
      s.currentActiveChannel = some chatToRemove.displayName →
      s.activeChannels.head? = some c → c ≠ "" →
      (onClosePrivateChat u data s).2 = [Emit.join c]) ∧
    ((s.activeChannels.head? = none ∨ s.activeChannels.head? = some "") →
      (onClosePrivateChat u data s).2 = []) := by
  cases hf : s.privateChats.find? (fun chat => chat.channel == data.channel) with
  | none =>
    rw [onClosePrivateChat_not_found u data s hf]
    simp [filter_channel_of_find?_none hf]
  | some r =>
    rw [onClosePrivateChat_snd_found u data s r hp hf, onClosePrivateChat_found u data s r hp hf]
    by_cases hc : s.currentActiveChannel = some r.displayName
    · cases hh : s.activeChannels.head? with
      | none => simp [hc, hh]
      | some c =>
        by_cases hce : c = ""
        · simp [hc, hh, hce]
        · refine ⟨by simp, ?_, by simp [hc, hh, hce], ?_, ?_, ?_⟩
          · intro e he
            simp only [hc, if_true, hce, if_false, List.mem_singleton] at he
            exact ⟨c, he, hce, rfl, by simp [hc]⟩
          · intro _
            exact ⟨r, rfl, hc⟩
          · intro c' r' _ _ hc' _
            cases hc'
            simp [hc, hce]
          · intro h
            rcases h with h | h
            · cases h
            · exact absurd (Option.some.inj h) hce
    · refine ⟨by simp, by simp [hc], by simp [hc], by simp [hc], ?_, by simp [hc]⟩
      intro c r' hr' hcur _ _
      cases hr'
      exact absurd hcur hc

theorem close_private_chat_effect_witness :
    ("bob" = "bob" ∨ "alice" = "bob") ∧
    (onClosePrivateChat "bob" { from_ := "alice", to_ := "bob", channel := "alice_bob" }
      bobWithChat).1.privateChats = [] ∧
    (bobWithChat.activeChannels.head? = none ∨ bobWithChat.activeChannels.head? = some "") ∧
    (onClosePrivateChat "bob" { from_ := "alice", to_ := "bob", channel := "alice_bob" }
      bobWithChat).2 = [] ∧
    bobChatting.privateChats.find? (fun chat => chat.channel == "alice_bob") =
      some { displayName := "alice", channel := "alice_bob" } ∧
    bobChatting.currentActiveChannel = some "alice" ∧
    bobChatting.activeChannels.head? = some "general" ∧ "general" ≠ "" ∧
    (onClosePrivateChat "bob" { from_ := "alice", to_ := "bob", channel := "alice_bob" }
      bobChatting).2 = [Emit.join "general"] :=
  ⟨Or.inl rfl,
    (close_private_chat_effect "bob" { from_ := "alice", to_ := "bob", channel := "alice_bob" }
      bobWithChat (Or.inl rfl)).1,
    Or.inl rfl,
    (close_private_chat_effect "bob" { from_ := "alice", to_ := "bob", channel := "alice_bob" }
      bobWithChat (Or.inl rfl)).2.2.2.2.2 (Or.inl rfl),
    by decide, rfl, rfl, by decide,
    (close_private_chat_effect "bob" { from_ := "alice", to_ := "bob", channel := "alice_bob" }
      bobChatting (Or.inl rfl)).2.2.2.2.1 "general"
      { displayName := "alice", channel := "alice_bob" } (by decide) rfl rfl (by decide)⟩

/-! ## Inbound `request_private_chat` -/

/-- C10 as stated fails: bob has an active private chat with alice and no
pending request; alice's `request_private_chat` still adds `alice` to
`privateChatRequests`. -/
theorem request_created_despite_active_chat :
    { displayName := "alice", channel := "alice_bob" } ∈ bobWithChat.privateChats ∧
    bobWithChat.privateChatRequests = [] ∧
    (onRequestPrivateChat "bob" { from_ := "alice", to_ := "bob" }
      bobWithChat).1.privateChatRequests = ["alice"] := by
  decide

/-- C10 amended: an inbound `request_private_chat` from a sender who already
has a pending request changes nothing; from a sender without a pending
request, addressed to the current user, it appends the sender to
`privateChatRequests`, whatever `privateChats` holds. -/
theorem request_private_chat_dedup (u : String) (data : RequestData) (s : State) :
    (data.from_ ∈ s.privateChatRequests → onRequestPrivateChat u data s = (s, [])) ∧
    (data.to_ = u → data.from_ ∉ s.privateChatRequests →
      (onRequestPrivateChat u data s).1.privateChatRequests =
        s.privateChatRequests ++ [data.from_]) := by
  constructor
  · intro h
    unfold onRequestPrivateChat
    simp [h]
  · intro ht h
    unfold onRequestPrivateChat
    simp [ht, h]

theorem request_private_chat_dedup_witness :
    ("alice" ∈ bobPending.privateChatRequests ∧
      onRequestPrivateChat "bob" { from_ := "alice", to_ := "bob" } bobPending
        = (bobPending, [])) ∧
    ("bob" = "bob" ∧ "alice" ∉ bobWithChat.privateChatRequests ∧
      (onRequestPrivateChat "bob" { from_ := "alice", to_ := "bob" }
        bobWithChat).1.privateChatRequests = ["alice"]) :=
  ⟨⟨by decide, (request_private_chat_dedup "bob" { from_ := "alice", to_ := "bob" }
      bobPending).1 (by decide)⟩,
    ⟨rfl, by decide, (request_private_chat_dedup "bob" { from_ := "alice", to_ := "bob" }
      bobWithChat).2 rfl (by decide)⟩⟩

/-! ## The message input -/

theorem inputOk_of_same {s s' : State} (hok : InputOk s)
    (h1 : s'.inputEnabled = s.inputEnabled)
    (h2 : s'.currentActiveChannel = s.currentActiveChannel)
    (h3 : s'.privateChatRequests = s.privateChatRequests) : InputOk s' := by
  unfold InputOk activeNotPending at *
  rw [h1, h2, h3]; exact hok

theorem inputOk_of_selected {s' : State} {c : String}
    (h1 : s'.inputEnabled = true) (h2 : s'.currentActiveChannel = some c)
    (h3 : c ∉ s'.privateChatRequests) : InputOk s' := by
  unfold InputOk activeNotPending
  rw [h1, h2]; simp [h3]

theorem inputOk_of_head {s' : State} (channels : List String)
    (h1 : s'.inputEnabled = truthy channels.head?)
    (h2 : s'.currentActiveChannel = channels.head?)
    (h3 : ∀ c ∈ channels, c ≠ "" ∧ c ∉ s'.privateChatRequests) : InputOk s' := by
  unfold InputOk activeNotPending
  rw [h1, h2]
  cases channels with
  | nil => simp [truthy]
  | cons c cs =>
    have := h3 c (List.mem_cons_self c cs)
    simp [truthy, this.1, this.2]

theorem inputOk_channelListClick {s : State} (hok : InputOk s) (c : String)
    (hc : c ∉ s.privateChatRequests) : InputOk (channelListClick c s).1 := by
  unfold channelListClick
  by_cases h : c ∈ s.activeChannels <;> by_cases h' : s.currentActiveChannel = some c
  · simpa [h, h'] using hok
  · exact inputOk_of_selected (c := c) (by simp [h, h', toggleChatInput])
      (by simp [h, h', toggleChatInput]) (by simpa [h, h', toggleChatInput] using hc)
  · exact inputOk_of_same hok (by simp [h, h']) (by simp [h, h']) (by simp [h, h'])
  · exact inputOk_of_selected (c := c) (by simp [h, h', toggleChatInput])
      (by simp [h, h', toggleChatInput]) (by simpa [h, h', toggleChatInput] using hc)

theorem inputOk_channelButtonClick {s : State} (hok : InputOk s) (c : String)
    (hc : c ∉ s.privateChatRequests) : InputOk (channelButtonClick c s).1 := by
  unfold channelButtonClick
  by_cases h' : s.currentActiveChannel = some c
  · simpa [h'] using hok
  · exact inputOk_of_selected (c := c) (by simp [h', toggleChatInput])
      (by simp [h', toggleChatInput]) (by simpa [h', toggleChatInput] using hc)

theorem inputOk_channelCloseClick {s : State} (hok : InputOk s) (hsep : Separated s)
    (c : String) : InputOk (channelCloseClick c s).1 := by
  rw [channelCloseClick_fst]
  by_cases h' : s.currentActiveChannel = some c
  · refine inputOk_of_head (s.activeChannels.filter (fun ch => ch != c))
      (by simp [h']) (by simp [h']) ?_
    intro x hx
    exact hsep.1 x (List.mem_of_mem_filter hx)
  · exact inputOk_of_same hok (by simp [h']) (by simp [h']) rfl

theorem inputOk_requestButtonClick {s : State} (hok : InputOk s) (r : String)
    (hr : r ∈ s.privateChatRequests) : InputOk (requestButtonClick r s).1 := by
  unfold requestButtonClick
  by_cases h' : s.currentActiveChannel = some r
  · simpa [h'] using hok
  · by_cases hv : r ∈ s.viewedRequests <;>
      simp [InputOk, activeNotPending, h', hv, hr, toggleChatInput]

theorem not_contains_filter_ne {l : List String} {c r : String} (h : c ≠ r) :
    (l.filter (fun req => req != r)).contains c = l.contains c := by
  rw [Bool.eq_iff_iff]
  simp [List.mem_filter, h]

theorem inputOk_requestCloseClick {s : State} (hok : InputOk s) (hsep : Separated s)
    (r : String) : InputOk (requestCloseClick r s).1 := by
  rw [requestCloseClick_fst]
  by_cases h' : s.currentActiveChannel = some r
  · rw [if_pos h']
    refine inputOk_of_head s.activeChannels rfl rfl ?_
    intro x hx
    refine ⟨(hsep.1 x hx).1, fun hmem => (hsep.1 x hx).2 (List.mem_of_mem_filter hmem)⟩
  · rw [if_neg h']
    unfold InputOk activeNotPending at *
    cases hcur : s.currentActiveChannel with
    | none => simpa [hcur] using hok
    | some c =>
      have hne : c ≠ r := fun h => h' (by rw [hcur, h])
      simp only [hcur] at hok ⊢
      rw [not_contains_filter_ne hne]
      exact hok

theorem inputOk_chatButtonClick {s : State} (hok : InputOk s) (chat : PrivateChat)
    (hc : chat.displayName ∉ s.privateChatRequests) : InputOk (chatButtonClick chat s).1 := by
  unfold chatButtonClick
  by_cases h' : s.currentActiveChannel = some chat.displayName
  · simpa [h'] using hok
  · by_cases hv : chat.displayName ∈ s.viewedChats <;>
      simp [InputOk, activeNotPending, h', hv, hc, toggleChatInput]

theorem inputOk_chatCloseClick {s : State} (hok : InputOk s) (hsep : Separated s)
    (username : String) (chat : PrivateChat) : InputOk (chatCloseClick username chat s).1 := by
  rw [chatCloseClick_fst]
  by_cases h' : s.currentActiveChannel = some chat.displayName
  · exact inputOk_of_head s.activeChannels (by simp [h']) (by simp [h']) hsep.1
  · exact inputOk_of_same hok (by simp [h']) (by simp [h']) rfl

theorem inputOk_acceptClick (username r : String) (s : State) :
    InputOk (acceptClick username r s).1 := by
  unfold acceptClick
  by_cases ha : s.privateChats.any (fun chat => chat.displayName == r) = true <;>
    by_cases hv : r ∈ s.viewedChats <;>
    simp [InputOk, activeNotPending, ha, hv, toggleChatInput, List.mem_filter]

theorem inputOk_onClosePrivateChat {s : State} (hok : InputOk s) (hsep : Separated s)
    (username : String) (data : ChatData) : InputOk (onClosePrivateChat username data s).1 := by
  by_cases hp : data.to_ = username ∨ data.from_ = username
  · cases hf : s.privateChats.find? (fun chat => chat.channel == data.channel) with
    | none => rw [onClosePrivateChat_not_found username data s hf]; exact hok
    | some r =>
      rw [onClosePrivateChat_found username data s r hp hf]
      by_cases h' : s.currentActiveChannel = some r.displayName
      · exact inputOk_of_head s.activeChannels (by simp [h']) (by simp [h']) hsep.1
      · exact inputOk_of_same hok (by simp [h']) (by simp [h']) rfl
  · rw [onClosePrivateChat_not_party username data s hp]; exact hok

/-- C6 as stated fails: bob is looking at alice's pending request (input
disabled, as the claim wants); after the inbound `remove_request` for alice
the active conversation is still `alice`, who is no longer a pending request,
and the input is still disabled. -/
theorem remove_request_breaks_input_rule :
    InputOk bobViewingRequest ∧
    (onRemoveRequest { request := "alice" } bobViewingRequest).1.currentActiveChannel
      = some "alice" ∧
    "alice" ∉ (onRemoveRequest { request := "alice" } bobViewingRequest).1.privateChatRequests ∧
    (onRemoveRequest { request := "alice" } bobViewingRequest).1.inputEnabled = false ∧
    ¬ InputOk (onRemoveRequest { request := "alice" } bobViewingRequest).1 := by
  decide

/-- After `rejoin_channels_response` with no channel, on a page that showed
channel `general`, no conversation is active and the input is still
enabled: the handler has no `toggleChatInput(false)`. -/
theorem rejoin_response_keeps_input_enabled :
    InputOk (channelListClick "general" emptyState).1 ∧
    (onRejoinChannelsResponse { channels := some [] }
      (channelListClick "general" emptyState).1).1.currentActiveChannel = none ∧
    (onRejoinChannelsResponse { channels := some [] }
      (channelListClick "general" emptyState).1).1.inputEnabled = true := by
  decide

/-- C6 amended: from a state where the input is enabled exactly when a
conversation is active and is not a pending request, and where no active
channel is named by the empty string or like a pending request and no
private chat is named like a pending request, the same equivalence holds
after a channel-list click on a name that is not a pending request's, a click
on a channel, request or private-chat tab that is shown, each of the three
tab closes, an accept, and an inbound `close_private_chat`. The handlers of
`request_private_chat`, `remove_request`, `start_private_chat`,
`check_private_requests_response` and `connect` change neither the input
switch nor the active conversation. -/
theorem input_follows_selection (u : String) (s : State)
    (hok : InputOk s) (hsep : Separated s) :
    (∀ c, c ∉ s.privateChatRequests → InputOk (channelListClick c s).1) ∧
    (∀ c ∈ s.activeChannels, InputOk (channelButtonClick c s).1) ∧
    (∀ c, InputOk (channelCloseClick c s).1) ∧
    (∀ r ∈ s.privateChatRequests, InputOk (requestButtonClick r s).1) ∧
    (∀ r, InputOk (requestCloseClick r s).1) ∧
    (∀ chat ∈ s.privateChats, InputOk (chatButtonClick chat s).1) ∧
    (∀ chat, InputOk (chatCloseClick u chat s).1) ∧
    (∀ r, InputOk (acceptClick u r s).1) ∧
    (∀ data, InputOk (onClosePrivateChat u data s).1) ∧
    (∀ data, (onRequestPrivateChat u data s).1.inputEnabled = s.inputEnabled ∧
      (onRequestPrivateChat u data s).1.currentActiveChannel = s.currentActiveChannel) ∧
    (∀ data, (onRemoveRequest data s).1.inputEnabled = s.inputEnabled ∧
      (onRemoveRequest data s).1.currentActiveChannel = s.currentActiveChannel) ∧
    (∀ data, (onStartPrivateChat u data s).1.inputEnabled = s.inputEnabled ∧
      (onStartPrivateChat u data s).1.currentActiveChannel = s.currentActiveChannel) ∧
    (∀ data, (onCheckPrivateRequestsResponse data s).1.inputEnabled = s.inputEnabled ∧
      (onCheckPrivateRequestsResponse data s).1.currentActiveChannel = s.currentActiveChannel) ∧
    ((onConnect s).1.inputEnabled = s.inputEnabled ∧
      (onConnect s).1.currentActiveChannel = s.currentActiveChannel) := by
  refine ⟨fun c hc => inputOk_channelListClick hok c hc,
    fun c hc => inputOk_channelButtonClick hok c (hsep.1 c hc).2,
    fun c => inputOk_channelCloseClick hok hsep c,
    fun r hr => inputOk_requestButtonClick hok r hr,
    fun r => inputOk_requestCloseClick hok hsep r,
    fun chat hc => inputOk_chatButtonClick hok chat (hsep.2 chat hc),
    fun chat => inputOk_chatCloseClick hok hsep u chat,
    fun r => inputOk_acceptClick u r s,
    fun data => inputOk_onClosePrivateChat hok hsep u data,
    fun data => ?_, fun data => ?_, fun data => ?_, fun data => ?_, ?_⟩
  · unfold onRequestPrivateChat; split <;> simp
  · simp [onRemoveRequest]
  · unfold onStartPrivateChat
    by_cases hp : (data.from_ == u || data.to_ == u) = true
    · simp only [hp, if_true]
      split <;> split <;> exact ⟨rfl, rfl⟩
    · simp only [hp]
      exact ⟨rfl, rfl⟩
  · simp [onCheckPrivateRequestsResponse]
  · unfold onConnect; split
    · split <;> simp
    · simp

theorem input_follows_selection_witness :
    InputOk bobChatting ∧ Separated bobChatting ∧
    InputOk (onClosePrivateChat "bob" { from_ := "alice", to_ := "bob", channel := "alice_bob" }
      bobChatting).1 ∧
    InputOk (channelCloseClick "general" bobChatting).1 :=
  ⟨by decide, by decide,
    (input_follows_selection "bob" bobChatting (by decide) (by decide)).2.2.2.2.2.2.2.2.1
      { from_ := "alice", to_ := "bob", channel := "alice_bob" },
    (input_follows_selection "bob" bobChatting (by decide) (by decide)).2.2.1 "general"⟩

/-- Why the channel names must differ from the requesters' names: with alice's
request pending, a click on a channel called `alice` enables the input while
the active name is that of a pending request. -/
theorem channel_named_like_request :
    InputOk bobPending ∧ ¬ InputOk (channelListClick "alice" bobPending).1 := by
  decide

/-- Why no active channel may be the empty string: a fallback to it leaves a
non-null active conversation with the input disabled. -/
theorem fallback_to_empty_name :
    InputOk { emptyState with
      activeChannels := ["general", ""], currentActiveChannel := some "general",
      inputEnabled := true } ∧
    ¬ InputOk (channelCloseClick "general" { emptyState with
      activeChannels := ["general", ""], currentActiveChannel := some "general",
      inputEnabled := true }).1 := by
  decide

/-! ## Room identifiers of different pairs -/

theorem jsJoin_pair (x y : String) : jsJoin "_" [x, y] = x ++ "_" ++ y := rfl

theorem join_pair_inj {x y x' y' : String} (hx : '_' ∉ x.data) (hy : '_' ∉ y.data)
    (h : x ++ "_" ++ y = x' ++ "_" ++ y') : x = x' ∧ y = y' := by
  have hd : x.data ++ '_' :: y.data = x'.data ++ '_' :: y'.data := by
    have := congrArg String.data h
    simpa [String.data_append] using this
  have := (List.append_cons_inj_of_not_mem hx hy).1 hd
  exact ⟨String.ext this.1, String.ext this.2.2⟩

/-- C18 as stated fails: the pairs `{a_b, c}` and `{a, b_c}` are different and
both get the room `a_b_c`. -/
theorem roomId_collision :
    roomId "a_b" "c" = roomId "a" "b_c" ∧
    ¬ (("a_b" = "a" ∧ "c" = "b_c") ∨ ("a_b" = "b_c" ∧ "c" = "a")) := by
  decide

/-- C18 amended: when neither `A` nor `B` contains the character `_`, the room
identifier of `{A, B}` is shared with no other pair: if it equals the
identifier of `{C, D}`, for any usernames `C` and `D`, then
`{A, B} = {C, D}`. -/
theorem roomId_injective_without_underscore (A B C D : String)
    (hA : '_' ∉ A.data) (hB : '_' ∉ B.data)
    (h : roomId A B = roomId C D) :
    (A = C ∧ B = D) ∨ (A = D ∧ B = C) := by
  unfold roomId at h
  rw [jsSort_pair, jsSort_pair] at h
  by_cases hab : jsLt B A = true <;> by_cases hcd : jsLt D C = true
  · simp only [hab, hcd, if_true, jsJoin_pair] at h
    have := join_pair_inj hB hA h
    exact Or.inl ⟨this.2, this.1⟩
  · simp only [hab, hcd, if_true, if_false, jsJoin_pair] at h
    have := join_pair_inj hB hA h
    exact Or.inr ⟨this.2, this.1⟩
  · simp only [hab, hcd, if_true, if_false, jsJoin_pair] at h
    have := join_pair_inj hA hB h
    exact Or.inr ⟨this.1, this.2⟩
  · simp only [hab, hcd, if_false, jsJoin_pair] at h
    have := join_pair_inj hA hB h
    exact Or.inl ⟨this.1, this.2⟩

theorem roomId_injective_without_underscore_witness :
    '_' ∉ "alice".data ∧ '_' ∉ "bob".data ∧ roomId "alice" "bob" = roomId "bob" "alice" ∧
    (("alice" = "bob" ∧ "bob" = "alice") ∨ ("alice" = "alice" ∧ "bob" = "bob")) :=
  ⟨by decide, by decide, by decide,
    roomId_injective_without_underscore "alice" "bob" "bob" "alice"
      (by decide) (by decide) (by decide)⟩

/-! ## Accepting a request that is gone -/

theorem filter_ne_of_not_mem {l : List String} {r : String} (h : r ∉ l) :
    l.filter (fun req => req != r) = l := by
  rw [List.filter_eq_self]
  intro x hx
  have : x ≠ r := fun e => h (e ▸ hx)
  simpa using this

/-- C11 as stated fails: alice's request was withdrawn by `remove_request`
while bob still saw its Accept button; the click on Accept creates the
private chat with alice and marks it viewed. -/
theorem accept_after_withdrawal_creates_chat :
    "alice" ∉ bobAfterWithdrawal.privateChatRequests ∧
    bobAfterWithdrawal.privateChats = [] ∧
    bobAfterWithdrawal.viewedChats = [] ∧
    (acceptClick "bob" "alice" bobAfterWithdrawal).1.privateChats =
      [{ displayName := "alice", channel := "alice_bob" }] ∧
    (acceptClick "bob" "alice" bobAfterWithdrawal).1.viewedChats = ["alice"] := by
  decide

/-- C11 amended: accepting a request `r` that is not in `privateChatRequests`
leaves `activeChannels` and `privateChatRequests` as they were and filters
`r` out of `viewedRequests`; it still emits `accept_private_chat` and `join`,
makes `r` the active conversation, appends the chat
`{displayName: r, channel: roomId r u}` unless a chat named `r` exists, and
appends `r` to `viewedChats` unless it is there. -/
theorem accept_of_absent_request (u r : String) (s : State)
    (h : r ∉ s.privateChatRequests) :
    (acceptClick u r s).1.activeChannels = s.activeChannels ∧
    (acceptClick u r s).1.privateChatRequests = s.privateChatRequests ∧
    (acceptClick u r s).1.viewedRequests = s.viewedRequests.filter (fun req => req != r) ∧
    ((∀ chat ∈ s.privateChats, chat.displayName ≠ r) →
      (acceptClick u r s).1.privateChats =
        s.privateChats ++ [{ displayName := r, channel := roomId r u }]) ∧
    ((∃ chat ∈ s.privateChats, chat.displayName = r) →
      (acceptClick u r s).1.privateChats = s.privateChats) ∧
    (r ∉ s.viewedChats → (acceptClick u r s).1.viewedChats = s.viewedChats ++ [r]) ∧
    (r ∈ s.viewedChats → (acceptClick u r s).1.viewedChats = s.viewedChats) ∧
    (acceptClick u r s).1.currentActiveChannel = some r ∧
    (acceptClick u r s).2 =
      [Emit.accept_private_chat r u, Emit.join (roomId r u)] := by
  have hf := filter_ne_of_not_mem h
  refine ⟨?_, ?_, ?_, ?_, ?_, ?_, ?_, ?_, ?_⟩
  · unfold acceptClick
    by_cases ha : s.privateChats.any (fun chat => chat.displayName == r) = true <;>
      by_cases hv : r ∈ s.viewedChats <;> simp [ha, hv, toggleChatInput]
  · unfold acceptClick
    by_cases ha : s.privateChats.any (fun chat => chat.displayName == r) = true <;>
      by_cases hv : r ∈ s.viewedChats <;> simp [ha, hv, toggleChatInput, hf]
  · unfold acceptClick
    by_cases ha : s.privateChats.any (fun chat => chat.displayName == r) = true <;>
      by_cases hv : r ∈ s.viewedChats <;> simp [ha, hv, toggleChatInput]
  · intro hno
    have ha := any_displayName_false hno
    unfold acceptClick
    by_cases hv : r ∈ s.viewedChats <;> simp [ha, hv, toggleChatInput]
  · intro hex
    have ha := any_displayName_true hex
    unfold acceptClick
    by_cases hv : r ∈ s.viewedChats <;> simp [ha, hv, toggleChatInput]
  · intro hv
    unfold acceptClick
    by_cases ha : s.privateChats.any (fun chat => chat.displayName == r) = true <;>
      simp [ha, hv, toggleChatInput]
  · intro hv
    unfold acceptClick
    by_cases ha : s.privateChats.any (fun chat => chat.displayName == r) = true <;>
      simp [ha, hv, toggleChatInput]
  · unfold acceptClick
    by_cases ha : s.privateChats.any (fun chat => chat.displayName == r) = true <;>
      by_cases hv : r ∈ s.viewedChats <;> simp [ha, hv, toggleChatInput]
  · rfl

theorem accept_of_absent_request_witness :
    "alice" ∉ bobAfterWithdrawal.privateChatRequests ∧
    (acceptClick "bob" "alice" bobAfterWithdrawal).1.privateChatRequests =
      bobAfterWithdrawal.privateChatRequests ∧
    (acceptClick "bob" "alice" bobAfterWithdrawal).1.currentActiveChannel = some "alice" ∧
    (acceptClick "bob" "alice" bobAfterWithdrawal).2 =
      [Emit.accept_private_chat "alice" "bob", Emit.join "alice_bob"] :=
  ⟨by decide,
    (accept_of_absent_request "bob" "alice" bobAfterWithdrawal (by decide)).2.1,
    (accept_of_absent_request "bob" "alice" bobAfterWithdrawal (by decide)).2.2.2.2.2.2.2.1,
    (accept_of_absent_request "bob" "alice" bobAfterWithdrawal (by decide)).2.2.2.2.2.2.2.2⟩

/-! ## The `connect` handshake -/

/-- C16: on `connect`, when a username is persisted and the logged-out flag is
not set (its stored value is absent or the empty string), the handler emits
`rejoin_channels` with the persisted username and the whole `activeChannels`
list, then `check_private_requests`, then one `join` per private chat, in
order; when no username is persisted or the flag is set it emits nothing; the
state is unchanged either way. -/
theorem connect_handshake (s : State) :
    (∀ username, s.sessionStorage.username = some username →
      truthy s.sessionStorage.is_logged_out = false →
      (onConnect s).2 =
        Emit.rejoin_channels username s.activeChannels ::
          Emit.check_private_requests username ::
            s.privateChats.map (fun chat => Emit.join chat.channel)) ∧
    ((s.sessionStorage.username = none ∨ truthy s.sessionStorage.is_logged_out = true) →
      (onConnect s).2 = []) ∧
    (onConnect s).1 = s := by
  refine ⟨fun username hu hl => ?_, fun h => ?_, ?_⟩
  · unfold onConnect
    simp [hu, hl]
  · unfold onConnect
    rcases h with h | h
    · simp [h]
    · cases hu : s.sessionStorage.username <;> simp [h]
  · unfold onConnect
    split
    · split <;> rfl
    · rfl

theorem connect_handshake_witness :
    bobReconnecting.sessionStorage.username = some "bob" ∧
    truthy bobReconnecting.sessionStorage.is_logged_out = false ∧
    (onConnect bobReconnecting).2 =
      [Emit.rejoin_channels "bob" ["general", "random"], Emit.check_private_requests "bob",
        Emit.join "alice_bob"] ∧
    ((emptyState.sessionStorage.username = none ∨
        truthy emptyState.sessionStorage.is_logged_out = true) ∧
      (onConnect emptyState).2 = []) :=
  ⟨rfl, rfl, (connect_handshake bobReconnecting).1 "bob" rfl rfl,
    Or.inl rfl, (connect_handshake emptyState).2.1 (Or.inl rfl)⟩

/-! ## Reconciliation and the active conversation -/

/-- C17 as stated fails: bob has the private chat with alice active; a
`rejoin_channels_response` confirming `general` makes `general` the active
conversation. -/
theorem rejoin_replaces_active_private_chat :
    bobChatting.currentActiveChannel = some "alice" ∧
    { displayName := "alice", channel := "alice_bob" } ∈ bobChatting.privateChats ∧
    "alice" ∉ bobChatting.activeChannels ∧
    (onRejoinChannelsResponse { channels := some ["general"] }
      bobChatting).1.currentActiveChannel = some "general" := by
  decide

/-- The state after `rejoin_channels_response`, field by field. -/
theorem onRejoinChannelsResponse_fst (data : RejoinData) (s : State) :
    (onRejoinChannelsResponse data s).1 =
      { s with
        activeChannels := data.channels.getD []
        sessionStorage := { s.sessionStorage with
          activeChannels := some (stringifyStrings (data.channels.getD [])) }
        currentActiveChannel :=
          match s.currentActiveChannel with
          | some c =>
            if c ≠ "" ∧ c ∉ data.channels.getD [] then (data.channels.getD []).head?
            else some c
          | none => none
        inputEnabled :=
          match s.currentActiveChannel with
          | some c =>
            if c ≠ "" ∧ c ∉ data.channels.getD [] then
              (if truthy (data.channels.getD []).head? then true else s.inputEnabled)
            else (if c ≠ "" then true else s.inputEnabled)
          | none => s.inputEnabled } := by
  unfold onRejoinChannelsResponse
  generalize data.channels.getD [] = chs
  cases hcur : s.currentActiveChannel with
  | none => simp [hcur]
  | some c =>
    by_cases hc : c = ""
    · simp [hcur, hc, truthy]
    · by_cases hm : c ∈ chs
      · simp [hcur, hc, hm, truthy, toggleChatInput]
      · cases hh : chs.head? with
        | none => simp [hcur, hc, hm, hh, truthy]
        | some d => by_cases hd : d = "" <;> simp [hcur, hc, hm, hh, hd, truthy, toggleChatInput]

theorem onRejoinChannelsResponse_current (data : RejoinData) (s : State) :
    (onRejoinChannelsResponse data s).1.currentActiveChannel =
      match s.currentActiveChannel with
      | some c =>
        if c ≠ "" ∧ c ∉ data.channels.getD [] then (data.channels.getD []).head? else some c
      | none => none := by
  rw [onRejoinChannelsResponse_fst]

/-- C17 amended: `rejoin_channels_response` leaves `privateChats`,
`privateChatRequests` and both viewed lists unchanged. The active
conversation is kept when it is null or the empty string, or when its name is
in the confirmed channel list; otherwise, whatever kind of conversation it
names, it becomes the first confirmed channel, or null when there is none. -/
theorem rejoin_active_conversation (data : RejoinData) (s : State) :
    (onRejoinChannelsResponse data s).1.privateChats = s.privateChats ∧
    (onRejoinChannelsResponse data s).1.privateChatRequests = s.privateChatRequests ∧
    (onRejoinChannelsResponse data s).1.viewedRequests = s.viewedRequests ∧
    (onRejoinChannelsResponse data s).1.viewedChats = s.viewedChats ∧
    (truthy s.currentActiveChannel = false →
      (onRejoinChannelsResponse data s).1.currentActiveChannel = s.currentActiveChannel) ∧
    (∀ c, s.currentActiveChannel = some c → c ∈ data.channels.getD [] →
      (onRejoinChannelsResponse data s).1.currentActiveChannel = some c) ∧
    (∀ c, s.currentActiveChannel = some c → c ≠ "" → c ∉ data.channels.getD [] →
      (onRejoinChannelsResponse data s).1.currentActiveChannel =
        (data.channels.getD []).head?) := by
  refine ⟨?_, ?_, ?_, ?_, fun ht => ?_, fun c hc hm => ?_, fun c hc hne hm => ?_⟩
  · rw [onRejoinChannelsResponse_fst]
  · rw [onRejoinChannelsResponse_fst]
  · rw [onRejoinChannelsResponse_fst]
  · rw [onRejoinChannelsResponse_fst]
  · rw [onRejoinChannelsResponse_current]
    cases hcur : s.currentActiveChannel with
    | none => rfl
    | some c =>
      have : c = "" := by simpa [hcur, truthy] using ht
      simp [this]
  · rw [onRejoinChannelsResponse_current, hc]
    simp [hm]
  · rw [onRejoinChannelsResponse_current, hc]
    simp [hm, hne]

theorem rejoin_active_conversation_witness :
    (bobChatting.currentActiveChannel = some "alice" ∧ "alice" ≠ "" ∧
      "alice" ∉ (some ["general"] : Option (List String)).getD [] ∧
      (onRejoinChannelsResponse { channels := some ["general"] }
        bobChatting).1.currentActiveChannel = some "general") ∧
    (bobChatting.currentActiveChannel = some "alice" ∧
      "alice" ∈ (some ["general", "alice"] : Option (List String)).getD [] ∧
      (onRejoinChannelsResponse { channels := some ["general", "alice"] }
        bobChatting).1.currentActiveChannel = some "alice") ∧
    (truthy emptyState.currentActiveChannel = false ∧
      (onRejoinChannelsResponse { channels := some ["general"] }
        emptyState).1.currentActiveChannel = none) :=
  ⟨⟨rfl, by decide, by decide,
      (rejoin_active_conversation { channels := some ["general"] } bobChatting).2.2.2.2.2.2
        "alice" rfl (by decide) (by decide)⟩,
    ⟨rfl, by decide,
      (rejoin_active_conversation { channels := some ["general", "alice"] }
        bobChatting).2.2.2.2.2.1 "alice" rfl (by decide)⟩,
    ⟨rfl, (rejoin_active_conversation { channels := some ["general"] } emptyState).2.2.2.2.1 rfl⟩⟩

/-! ## Routing of messages -/

/-- C14 as stated fails: bob opened `general`, then `random`; the history of
`general` arrives while `random` is the active conversation and is
rendered, although the room `general` does not map to the active
conversation. -/
theorem load_messages_ignores_room :
    bobTwoChannels.currentActiveChannel = some "random" ∧
    ¬ roomMapsToActive bobTwoChannels generalHistory.room ∧
    onLoadMessages generalHistory.messages bobTwoChannels =
      some (Render.replaceAll generalHistory.messages) := by
  decide

theorem find?_channel_some {l : List PrivateChat} {room : String} {chat : PrivateChat}
    (h : l.find? (fun chat => chat.channel == room) = some chat) :
    chat ∈ l ∧ chat.channel = room := by
  refine ⟨List.mem_of_find?_eq_some h, ?_⟩
  have := List.find?_some h
  simpa using this

/-- C14 amended: an inbound `new_message` is rendered only if its room maps,
through the private-chat lookup by channel or directly, to the active
conversation, and never when its sender is the current user. An inbound
`load_messages` is rendered exactly when some conversation is active
(non-null and non-empty), whatever room its history belongs to. -/
theorem message_routing (u : String) (s : State) :
    (∀ data r, onNewMessage u data s = some r →
      roomMapsToActive s data.channel ∧ data.username ≠ u ∧
        r = Render.append data.username data.message) ∧
    (∀ data, data.username = u → onNewMessage u data s = none) ∧
    (∀ event : LoadMessagesEvent, truthy s.currentActiveChannel = true →
      onLoadMessages event.messages s = some (Render.replaceAll event.messages)) ∧
    (∀ event : LoadMessagesEvent, truthy s.currentActiveChannel = false →
      onLoadMessages event.messages s = none) := by
  refine ⟨fun data r h => ?_, fun data hu => ?_, fun event ht => ?_, fun event ht => ?_⟩
  · unfold onNewMessage at h
    cases hf : s.privateChats.find? (fun chat => chat.channel == data.channel) with
    | none =>
      simp only [hf] at h
      split at h
      · split at h
        · rename_i hc
          simp only [Bool.and_eq_true, beq_iff_eq, bne_iff_ne, ne_eq] at hc
          exact ⟨Or.inr hc.1, hc.2, by simpa using h.symm⟩
        · cases h
      · cases h
    | some chat =>
      simp only [hf] at h
      obtain ⟨hmem, hch⟩ := find?_channel_some hf
      split at h
      · split at h
        · rename_i hc
          simp only [Bool.and_eq_true, beq_iff_eq, bne_iff_ne, ne_eq] at hc
          exact ⟨Or.inl ⟨chat, hmem, hch, hc.1⟩, hc.2, by simpa using h.symm⟩
        · cases h
      · cases h
  · unfold onNewMessage
    simp [hu]
  · unfold onLoadMessages
    simp [ht]
  · unfold onLoadMessages
    simp [ht]

theorem message_routing_witness :
    (truthy bobTwoChannels.currentActiveChannel = true ∧
      onLoadMessages randomHistory.messages bobTwoChannels =
        some (Render.replaceAll randomHistory.messages)) ∧
    (onNewMessage "bob" { channel := "random", username := "alice", message := "hi" }
        bobTwoChannels = some (Render.append "alice" "hi") ∧
      roomMapsToActive bobTwoChannels "random" ∧ "alice" ≠ "bob") ∧
    ("bob" = "bob" ∧
      onNewMessage "bob" { channel := "random", username := "bob", message := "hi" }
        bobTwoChannels = none) :=
  ⟨⟨by decide, (message_routing "bob" bobTwoChannels).2.2.1 randomHistory (by decide)⟩,
    ⟨by decide,
      ((message_routing "bob" bobTwoChannels).1
        { channel := "random", username := "alice", message := "hi" }
        (Render.append "alice" "hi") (by decide)).1,
      ((message_routing "bob" bobTwoChannels).1
        { channel := "random", username := "alice", message := "hi" }
        (Render.append "alice" "hi") (by decide)).2.1⟩,
    ⟨rfl, (message_routing "bob" bobTwoChannels).2.1
      { channel := "random", username := "bob", message := "hi" } rfl⟩⟩

/-! ## Restoring the snapshot -/

theorem loadKey_missing {α : Type} (parse : String → Except Thrown (Option (List α)))
    (h : parse "null" = .ok none) : loadKey parse none = .ok [] := by
  simp [loadKey, h]

theorem loadKey_rejected {α : Type} (parse : String → Except Thrown (Option (List α)))
    (text : String) (h : parse text = .error Thrown.syntaxError) :
    loadKey parse (some text) = .error Thrown.syntaxError := by
  simp [loadKey, h]

theorem thrown_eq (e : Thrown) : e = Thrown.syntaxError := by
  cases e; rfl

/-- C13 as stated fails: with the text `[` stored under `activeChannels`,
`JSON.parse` throws and the start-up code ends with that exception instead of
an empty collection. -/
theorem corrupt_snapshot_aborts_startup :
    (parseSample "[" : Except Thrown (Option (List String))) = .error Thrown.syntaxError ∧
    restore parseSample parseSample false { emptyStorage with activeChannels := some "[" }
      = .error Thrown.syntaxError :=
  ⟨rfl, rfl⟩

/-- C13 amended: at start-up a missing value yields the empty collection for
its key, and with all five keys missing loading succeeds with five empty
collections; a value on which `JSON.parse` throws, under any of the five
keys, makes loading fail with that `SyntaxError`. -/
theorem restore_missing_or_corrupt
    (parseStrings : String → Except Thrown (Option (List String)))
    (parseChats : String → Except Thrown (Option (List PrivateChat)))
    (inputEnabled : Bool) (storage : Storage)
    (hs : parseStrings "null" = .ok none) (hc : parseChats "null" = .ok none) :
    (∀ s, restore parseStrings parseChats inputEnabled storage = .ok s →
      (storage.activeChannels = none → s.activeChannels = []) ∧
      (storage.privateChatRequests = none → s.privateChatRequests = []) ∧
      (storage.viewedRequests = none → s.viewedRequests = []) ∧
      (storage.privateChats = none → s.privateChats = []) ∧
      (storage.viewedChats = none → s.viewedChats = [])) ∧
    (storage.activeChannels = none → storage.privateChatRequests = none →
      storage.viewedRequests = none → storage.privateChats = none →
      storage.viewedChats = none →
      restore parseStrings parseChats inputEnabled storage =
        .ok { activeChannels := [], currentActiveChannel := none, privateChatRequests := [],
              viewedRequests := [], privateChats := [], viewedChats := [],
              inputEnabled := inputEnabled, sessionStorage := storage }) ∧
    (∀ text, parseStrings text = .error Thrown.syntaxError →
      (storage.activeChannels = some text ∨ storage.privateChatRequests = some text ∨
        storage.viewedRequests = some text ∨ storage.viewedChats = some text) →
      restore parseStrings parseChats inputEnabled storage = .error Thrown.syntaxError) ∧
    (∀ text, parseChats text = .error Thrown.syntaxError →
      storage.privateChats = some text →
      restore parseStrings parseChats inputEnabled storage = .error Thrown.syntaxError) := by
  have hms := loadKey_missing parseStrings hs
  have hmc := loadKey_missing parseChats hc
  refine ⟨fun s h => ?_, fun h1 h2 h3 h4 h5 => ?_, fun text ht hk => ?_, fun text ht hk => ?_⟩
  · unfold restore at h
    cases h1 : loadKey parseStrings storage.activeChannels with
    | error e => simp [h1] at h
    | ok v1 =>
      cases h2 : loadKey parseStrings storage.privateChatRequests with
      | error e => simp [h1, h2] at h
      | ok v2 =>
        cases h3 : loadKey parseStrings storage.viewedRequests with
        | error e => simp [h1, h2, h3] at h
        | ok v3 =>
          cases h4 : loadKey parseChats storage.privateChats with
          | error e => simp [h1, h2, h3, h4] at h
          | ok v4 =>
            cases h5 : loadKey parseStrings storage.viewedChats with
            | error e => simp [h1, h2, h3, h4, h5] at h
            | ok v5 =>
              simp only [h1, h2, h3, h4, h5, Except.ok.injEq] at h
              subst h
              refine ⟨fun hk => ?_, fun hk => ?_, fun hk => ?_, fun hk => ?_, fun hk => ?_⟩
              · rw [hk, hms] at h1; cases h1; rfl
              · rw [hk, hms] at h2; cases h2; rfl
              · rw [hk, hms] at h3; cases h3; rfl
              · rw [hk, hmc] at h4; cases h4; rfl
              · rw [hk, hms] at h5; cases h5; rfl
  · unfold restore
    simp only [h1, h2, h3, h4, h5, hms, hmc]
  · unfold restore
    have hr := loadKey_rejected parseStrings text ht
    cases h1 : loadKey parseStrings storage.activeChannels with
    | error e => simp [thrown_eq e]
    | ok v1 =>
      cases h2 : loadKey parseStrings storage.privateChatRequests with
      | error e => simp [thrown_eq e]
      | ok v2 =>
        cases h3 : loadKey parseStrings storage.viewedRequests with
        | error e => simp [thrown_eq e]
        | ok v3 =>
          cases h4 : loadKey parseChats storage.privateChats with
          | error e => simp [thrown_eq e]
          | ok v4 =>
            cases h5 : loadKey parseStrings storage.viewedChats with
            | error e => simp [thrown_eq e]
            | ok v5 =>
              rcases hk with hk | hk | hk | hk
              · rw [hk, hr] at h1; cases h1
              · rw [hk, hr] at h2; cases h2
              · rw [hk, hr] at h3; cases h3
              · rw [hk, hr] at h5; cases h5
  · unfold restore
    have hr := loadKey_rejected parseChats text ht
    cases h1 : loadKey parseStrings storage.activeChannels with
    | error e => simp [thrown_eq e]
    | ok v1 =>
      cases h2 : loadKey parseStrings storage.privateChatRequests with
      | error e => simp [thrown_eq e]
      | ok v2 =>
        cases h3 : loadKey parseStrings storage.viewedRequests with
        | error e => simp [thrown_eq e]
        | ok v3 =>
          cases h4 : loadKey parseChats storage.privateChats with
          | error e => simp [thrown_eq e]
          | ok v4 => rw [hk, hr] at h4; cases h4

theorem restore_missing_or_corrupt_witness :
    ((parseSample "null" : Except Thrown (Option (List String))) = .ok none) ∧
    ((parseSample "null" : Except Thrown (Option (List PrivateChat))) = .ok none) ∧
    restore parseSample parseSample false emptyStorage = .ok emptyState ∧
    ((parseSample "[" : Except Thrown (Option (List PrivateChat))) = .error Thrown.syntaxError ∧
      restore parseSample parseSample false { emptyStorage with privateChats := some "[" }
        = .error Thrown.syntaxError) :=
  ⟨rfl, rfl,
    (restore_missing_or_corrupt parseSample parseSample false emptyStorage
      (rfl) (rfl)).2.1 rfl rfl rfl rfl rfl,
    rfl,
    (restore_missing_or_corrupt parseSample parseSample false
      { emptyStorage with privateChats := some "[" } (rfl) (rfl)).2.2.2
      "[" (rfl) rfl⟩

/-! ## The stored snapshot -/

theorem synced_channelListClick {s : State} (h : Synced s) (c : String) :
    Synced (channelListClick c s).1 := by
  obtain ⟨h1, h2, h3, h4, h5⟩ := h
  unfold channelListClick
  by_cases hm : c ∈ s.activeChannels <;> by_cases hc : s.currentActiveChannel = some c <;>
    simp [Synced, hm, hc, toggleChatInput, h1, h2, h3, h4, h5]

theorem synced_channelButtonClick {s : State} (h : Synced s) (c : String) :
    Synced (channelButtonClick c s).1 := by
  obtain ⟨h1, h2, h3, h4, h5⟩ := h
  unfold channelButtonClick
  by_cases hc : s.currentActiveChannel = some c <;>
    simp [Synced, hc, toggleChatInput, h1, h2, h3, h4, h5]

theorem synced_channelCloseClick {s : State} (h : Synced s) (c : String) :
    Synced (channelCloseClick c s).1 := by
  obtain ⟨h1, h2, h3, h4, h5⟩ := h
  rw [channelCloseClick_fst]
  simp [Synced, h2, h3, h4, h5]

theorem synced_requestButtonClick {s : State} (h : Synced s) (r : String) :
    Synced (requestButtonClick r s).1 := by
  obtain ⟨h1, h2, h3, h4, h5⟩ := h
  unfold requestButtonClick
  by_cases hc : s.currentActiveChannel = some r <;> by_cases hv : r ∈ s.viewedRequests <;>
    simp [Synced, hc, hv, toggleChatInput, h1, h2, h3, h4, h5]

theorem synced_requestCloseClick {s : State} (h : Synced s) (r : String) :
    Synced (requestCloseClick r s).1 := by
  obtain ⟨h1, h2, h3, h4, h5⟩ := h
  rw [requestCloseClick_fst]
  split <;> simp [Synced, h1, h4, h5]

theorem synced_chatButtonClick {s : State} (h : Synced s) (chat : PrivateChat) :
    Synced (chatButtonClick chat s).1 := by
  obtain ⟨h1, h2, h3, h4, h5⟩ := h
  unfold chatButtonClick
  by_cases hc : s.currentActiveChannel = some chat.displayName <;>
    by_cases hv : chat.displayName ∈ s.viewedChats <;>
    simp [Synced, hc, hv, toggleChatInput, h1, h2, h3, h4, h5]

theorem synced_chatCloseClick {s : State} (h : Synced s) (u : String) (chat : PrivateChat) :
    Synced (chatCloseClick u chat s).1 := by
  obtain ⟨h1, h2, h3, h4, h5⟩ := h
  rw [chatCloseClick_fst]
  simp [Synced, h1, h2, h3]

theorem synced_acceptClick {s : State} (h : Synced s) (u r : String) :
    Synced (acceptClick u r s).1 := by
  obtain ⟨h1, h2, h3, h4, h5⟩ := h
  unfold acceptClick
  by_cases ha : s.privateChats.any (fun chat => chat.displayName == r) = true <;>
    by_cases hv : r ∈ s.viewedChats <;>
    simp [Synced, ha, hv, toggleChatInput, h1, h2, h3, h4, h5]

theorem synced_onRequestPrivateChat {s : State} (h : Synced s) (u : String)
    (data : RequestData) : Synced (onRequestPrivateChat u data s).1 := by
  obtain ⟨h1, h2, h3, h4, h5⟩ := h
  unfold onRequestPrivateChat
  split <;> simp [Synced, h1, h2, h3, h4, h5]

theorem synced_onRemoveRequest {s : State} (h : Synced s) (data : RemoveData) :
    Synced (onRemoveRequest data s).1 := by
  obtain ⟨h1, h2, h3, h4, h5⟩ := h
  simp [Synced, onRemoveRequest, h1, h4, h5]

theorem synced_onStartPrivateChat {s : State} (h : Synced s) (u : String) (data : ChatData) :
    Synced (onStartPrivateChat u data s).1 := by
  obtain ⟨h1, h2, h3, h4, h5⟩ := h
  unfold onStartPrivateChat
  by_cases hp : (data.from_ == u || data.to_ == u) = true
  · simp only [hp, if_true]
    split <;> split <;> exact ⟨h1, rfl, rfl, by first | rfl | exact h4, h5⟩
  · simp only [hp]
    exact ⟨h1, h2, h3, h4, h5⟩

theorem synced_onClosePrivateChat {s : State} (h : Synced s) (u : String) (data : ChatData) :
    Synced (onClosePrivateChat u data s).1 := by
  by_cases hp : data.to_ = u ∨ data.from_ = u
  · cases hf : s.privateChats.find? (fun chat => chat.channel == data.channel) with
    | none => rw [onClosePrivateChat_not_found u data s hf]; exact h
    | some r =>
      obtain ⟨h1, h2, h3, h4, h5⟩ := h
      rw [onClosePrivateChat_found u data s r hp hf]
      simp [Synced, h1, h2, h3]
  · rw [onClosePrivateChat_not_party u data s hp]; exact h

theorem synced_onConnect {s : State} (h : Synced s) : Synced (onConnect s).1 := by
  have : (onConnect s).1 = s := by
    unfold onConnect
    split
    · split <;> rfl
    · rfl
  rw [this]; exact h

theorem synced_onRejoinChannelsResponse {s : State} (h : Synced s) (data : RejoinData) :
    Synced (onRejoinChannelsResponse data s).1 := by
  obtain ⟨h1, h2, h3, h4, h5⟩ := h
  rw [onRejoinChannelsResponse_fst]
  simp [Synced, h2, h3, h4, h5]

theorem synced_onCheckPrivateRequestsResponse {s : State} (h : Synced s)
    (data : RequestsData) : Synced (onCheckPrivateRequestsResponse data s).1 := by
  obtain ⟨h1, h2, h3, h4, h5⟩ := h
  simp [Synced, onCheckPrivateRequestsResponse, h1, h3, h4, h5]

/-- C15: if each of the five snapshot keys holds the serialisation of its
in-memory collection before a handler runs, the same is true when it
returns, for every user action and every inbound event handler. -/
theorem snapshot_stays_in_step (u : String) (a : Action) (s : State) (h : Synced s) :
    Synced (step u a s).1 := by
  cases a with
  | channelListClick c => exact synced_channelListClick h c
  | channelButtonClick c => exact synced_channelButtonClick h c
  | channelCloseClick c => exact synced_channelCloseClick h c
  | requestButtonClick r => exact synced_requestButtonClick h r
  | requestCloseClick r => exact synced_requestCloseClick h r
  | chatButtonClick chat => exact synced_chatButtonClick h chat
  | chatCloseClick chat => exact synced_chatCloseClick h u chat
  | acceptClick r => exact synced_acceptClick h u r
  | request_private_chat data => exact synced_onRequestPrivateChat h u data
  | remove_request data => exact synced_onRemoveRequest h data
  | start_private_chat data => exact synced_onStartPrivateChat h u data
  | close_private_chat data => exact synced_onClosePrivateChat h u data
  | connect => exact synced_onConnect h
  | rejoin_channels_response data => exact synced_onRejoinChannelsResponse h data
  | check_private_requests_response data => exact synced_onCheckPrivateRequestsResponse h data

theorem snapshot_stays_in_step_witness :
    Synced syncedEmpty ∧
    Synced (step "bob" (Action.request_private_chat { from_ := "alice", to_ := "bob" })
      syncedEmpty).1 ∧
    (step "bob" (Action.request_private_chat { from_ := "alice", to_ := "bob" })
      syncedEmpty).1.sessionStorage.privateChatRequests = some "[\"alice\"]" :=
  ⟨by decide,
    snapshot_stays_in_step "bob" (Action.request_private_chat { from_ := "alice", to_ := "bob" })
      syncedEmpty (by decide),
    by decide⟩

/-! ## Viewed markers -/

/-- C12: two reachable states in which an item is created while its viewed
marker is already there. On bob's page, alice's viewed request was dropped by
`check_private_requests_response`, which left `alice` in `viewedRequests`; her
next `request_private_chat` creates the request already marked viewed. On the
page of `a_b_a`, `close_private_chat` removed the chat with `b_a` and left
`b_a` in `viewedChats`; the next `start_private_chat` creates the chat with
`b_a` already marked viewed. -/
theorem new_item_already_viewed :
    ("alice" ∉ bobAfterRecheck.privateChatRequests ∧
      "alice" ∈ bobAfterRecheck.viewedRequests ∧
      (onRequestPrivateChat "bob" { from_ := "alice", to_ := "bob" }
        bobAfterRecheck).1.privateChatRequests = ["alice"]) ∧
    ((∀ chat ∈ sharedRoomClosed.privateChats, chat.displayName ≠ "b_a") ∧
      "b_a" ∈ sharedRoomClosed.viewedChats ∧
      (onStartPrivateChat "a_b_a" { from_ := "b_a", to_ := "a_b_a", channel := "a_b_a_b_a" }
        sharedRoomClosed).1.privateChats = [{ displayName := "b_a", channel := "a_b_a_b_a" }]) := by
  decide

theorem mem_filter_both {l l' : List String} {p : String → Bool}
    (h : ∀ r ∈ l, r ∈ l') : ∀ r ∈ l.filter p, r ∈ l'.filter p := by
  intro r hr
  rw [List.mem_filter] at hr ⊢
  exact ⟨h r hr.1, hr.2⟩

theorem requestButtonClick_lists (r : String) (s : State) :
    (requestButtonClick r s).1.privateChatRequests = s.privateChatRequests ∧
    ∀ x ∈ (requestButtonClick r s).1.viewedRequests, x ∈ s.viewedRequests ∨ x = r := by
  unfold requestButtonClick
  by_cases hc : s.currentActiveChannel = some r <;> by_cases hv : r ∈ s.viewedRequests <;>
    simp [hc, hv, toggleChatInput] <;> intro x hx <;> exact Or.inl hx

/-- Every handler other than `check_private_requests_response` keeps the
viewed markers of requests among the pending requests, a request tab being
clicked only while it is shown. -/
theorem viewed_requests_pruned_elsewhere (u : String) (a : Action) (s : State)
    (h : ViewedPending s)
    (hcheck : ∀ data, a ≠ Action.check_private_requests_response data)
    (hshown : ∀ r, a = Action.requestButtonClick r → r ∈ s.privateChatRequests) :
    ViewedPending (step u a s).1 := by
  cases a with
  | channelListClick c =>
    show ViewedPending (channelListClick c s).1
    unfold channelListClick
    by_cases hm : c ∈ s.activeChannels <;> by_cases hc : s.currentActiveChannel = some c <;>
      simpa [ViewedPending, hm, hc, toggleChatInput] using h
  | channelButtonClick c =>
    show ViewedPending (channelButtonClick c s).1
    unfold channelButtonClick
    by_cases hc : s.currentActiveChannel = some c <;>
      simpa [ViewedPending, hc, toggleChatInput] using h
  | channelCloseClick c =>
    show ViewedPending (channelCloseClick c s).1
    rw [channelCloseClick_fst]; exact h
  | requestButtonClick r =>
    show ViewedPending (requestButtonClick r s).1
    have hr := hshown r rfl
    obtain ⟨h1, h2⟩ := requestButtonClick_lists r s
    intro x hx
    rw [h1]
    rcases h2 x hx with hx' | hx'
    · exact h x hx'
    · rw [hx']; exact hr
  | requestCloseClick r =>
    show ViewedPending (requestCloseClick r s).1
    rw [requestCloseClick_fst]
    split <;> exact mem_filter_both h
  | chatButtonClick chat =>
    show ViewedPending (chatButtonClick chat s).1
    unfold chatButtonClick
    by_cases hc : s.currentActiveChannel = some chat.displayName <;>
      by_cases hv : chat.displayName ∈ s.viewedChats <;>
      simpa [ViewedPending, hc, hv, toggleChatInput] using h
  | chatCloseClick chat =>
    show ViewedPending (chatCloseClick u chat s).1
    rw [chatCloseClick_fst]; exact h
  | acceptClick r =>
    show ViewedPending (acceptClick u r s).1
    have hf := mem_filter_both (p := fun req => req != r) h
    unfold acceptClick
    by_cases ha : s.privateChats.any (fun chat => chat.displayName == r) = true <;>
      by_cases hv : r ∈ s.viewedChats <;>
      simpa [ViewedPending, ha, hv, toggleChatInput] using hf
  | request_private_chat data =>
    show ViewedPending (onRequestPrivateChat u data s).1
    unfold onRequestPrivateChat
    split
    · intro x hx
      simp only [List.mem_append]
      exact Or.inl (h x hx)
    · exact h
  | remove_request data =>
    show ViewedPending (onRemoveRequest data s).1
    exact mem_filter_both h
  | start_private_chat data =>
    show ViewedPending (onStartPrivateChat u data s).1
    have hf := mem_filter_both (p := fun req => req != data.from_ && req != data.to_) h
    unfold onStartPrivateChat
    by_cases hp : (data.from_ == u || data.to_ == u) = true
    · simp only [hp, if_true]
      split <;> split <;> exact hf
    · simp only [hp]
      exact h
  | close_private_chat data =>
    show ViewedPending (onClosePrivateChat u data s).1
    by_cases hp : data.to_ = u ∨ data.from_ = u
    · cases hfind : s.privateChats.find? (fun chat => chat.channel == data.channel) with
      | none => rw [onClosePrivateChat_not_found u data s hfind]; exact h
      | some r => rw [onClosePrivateChat_found u data s r hp hfind]; exact h
    · rw [onClosePrivateChat_not_party u data s hp]; exact h
  | connect =>
    show ViewedPending (onConnect s).1
    have : (onConnect s).1 = s := by
      unfold onConnect
      split
      · split <;> rfl
      · rfl
    rw [this]; exact h
  | rejoin_channels_response data =>
    show ViewedPending (onRejoinChannelsResponse data s).1
    rw [onRejoinChannelsResponse_fst]; exact h
  | check_private_requests_response data => exact absurd rfl (hcheck data)

end ChatSphere
